import Mathlib

/-
  Verification development for the container-terminal investment simulation
  (src/src/terminal_optimization/container_system.py together with the
  default records in container_defaults.py).

  Modelling conventions:
  - Python floats are modelled by exact rationals.  A value that the source
    can make non-finite (float inf or nan) is modelled by the type PFloat
    below, where the value none stands for a non-finite float.
  - Python int() truncates toward zero; py_int below does the same.
  - np.ceil composed with int() is Rat.ceil.
  - Python integer floor division is Nat division on counts.
  - The class definitions of the terminal objects (container_objects.py) and
    a few default records (empty handler, general services, labour salaries,
    some stack fields, the quay apron pavement rate) are not part of src/;
    they are modelled from the spec as injectable configuration records as
    stated in each doc comment.
-/

namespace ContainerSystem

/-- PFloat models a Python float that may be non-finite: some q is the finite
float of exact value q, none is a non-finite float (inf or nan). -/
abbrev PFloat := Option ℚ

/-- Addition on possibly non-finite floats: any non-finite operand makes the
result non-finite (inf+finite=inf, inf-inf=nan, nan propagates). -/
def pAdd : PFloat → PFloat → PFloat
  | some a, some b => some (a + b)
  | _, _ => none

/-- Negation on possibly non-finite floats. -/
def pNeg : PFloat → PFloat
  | some a => some (-a)
  | none => none

/-- Multiplication on possibly non-finite floats; a non-finite operand gives a
non-finite result (covers inf*x=inf and inf*0=nan uniformly). -/
def pMul : PFloat → PFloat → PFloat
  | some a, some b => some (a * b)
  | _, _ => none

/-- Division of a possibly non-finite float by a finite float. -/
def pDiv : PFloat → ℚ → PFloat
  | some a, k => some (a / k)
  | none, _ => none

/-- Comparison value > threshold where the value none stands for float inf
(this helper is only used where the source can produce inf, never nan). -/
def pGtQ : PFloat → ℚ → Bool
  | none, _ => true
  | some a, b => decide (a > b)

/-- Sum of a list of possibly non-finite floats. -/
def pSum (l : List PFloat) : PFloat := l.foldr pAdd (some 0)

/-- py_int models Python int() applied to a float: truncation toward zero. -/
def py_int (q : ℚ) : ℤ := if q < 0 then -(⌊-q⌋) else ⌊q⌋

/-- py_ceil models int(np.ceil(x)). -/
def py_ceil (q : ℚ) : ℤ := ⌈q⌉

-- *** Constants taken from container_defaults.py ***

/-- Call size of the Handysize vessel record (container_defaults.handysize_data). -/
def handysize_call_size : ℚ := 35000
/-- Mooring time of the Handysize vessel record. -/
def handysize_mooring_time : ℚ := 3
/-- Call size of the Handymax vessel record. -/
def handymax_call_size : ℚ := 55000
/-- Mooring time of the Handymax vessel record. -/
def handymax_mooring_time : ℚ := 3
/-- Call size of the Panamax vessel record. -/
def panamax_call_size : ℚ := 3000
/-- Mooring time of the Panamax vessel record. -/
def panamax_mooring_time : ℚ := 6

/-- LOA of the Handysize vessel record. -/
def handysize_LOA : ℚ := 130
/-- LOA of the Handymax vessel record. -/
def handymax_LOA : ℚ := 180
/-- LOA of the Panamax vessel record. -/
def panamax_LOA : ℚ := 290

/-- Draft of the Handysize vessel record. -/
def handysize_draft : ℚ := 10
/-- Draft of the Handymax vessel record. -/
def handymax_draft : ℚ := 23 / 2
/-- Draft of the Panamax vessel record. -/
def panamax_draft : ℚ := 13

/-- Allowed turnaround time of the Handysize vessel record. -/
def handysize_all_turn_time : ℚ := 24
/-- Allowed turnaround time of the Handymax vessel record. -/
def handymax_all_turn_time : ℚ := 24
/-- Allowed turnaround time of the Panamax vessel record. -/
def panamax_all_turn_time : ℚ := 31

/-- Demurrage rate of the Handysize vessel record. -/
def handysize_demurrage_rate : ℚ := 600
/-- Demurrage rate of the Handymax vessel record. -/
def handymax_demurrage_rate : ℚ := 750
/-- Demurrage rate of the Panamax vessel record. -/
def panamax_demurrage_rate : ℚ := 730

/-- Berth record (container_defaults.berth_data): delivery time. -/
def berth_delivery_time : ℤ := 1
/-- Berth record: crane slots provided per berth. -/
def berth_max_cranes : ℕ := 4

/-- Quay wall record (container_defaults.quay_wall_data): delivery time. -/
def quay_delivery_time : ℤ := 2
/-- Quay wall record: minimum mobilisation cost. -/
def quay_mobilisation_min : ℚ := 2500000
/-- Quay wall record: mobilisation percentage. -/
def quay_mobilisation_perc : ℚ := 2 / 100
/-- Quay wall record: maintenance percentage. -/
def quay_maintenance_perc : ℚ := 1 / 100
/-- Quay wall record: insurance percentage. -/
def quay_insurance_perc : ℚ := 1 / 100
/-- Quay wall record: freeboard. -/
def quay_freeboard : ℚ := 4
/-- Quay wall record: Gijt constant of the unit-rate formula. -/
def quay_Gijt_constant : ℚ := 7572 / 10
/-- Quay wall record: maximum sinkage allowance. -/
def quay_max_sinkage : ℚ := 1 / 2
/-- Quay wall record: wave motion allowance. -/
def quay_wave_motion : ℚ := 1 / 2
/-- Quay wall record: safety margin. -/
def quay_safety_margin : ℚ := 1 / 2
/-- Quay wall record: apron width. -/
def quay_apron_width : ℚ := 131 / 2

/-- Tractor-trailer record (container_defaults.tractor_trailer_data): delivery time. -/
def tractor_delivery_time : ℤ := 0
/-- Tractor-trailer record: mobilisation cost. -/
def tractor_mobilisation : ℚ := 1000
/-- Tractor-trailer record: unit rate. -/
def tractor_unit_rate : ℚ := 85000
/-- Tractor-trailer record: maintenance percentage. -/
def tractor_maintenance_perc : ℚ := 1 / 10
/-- Tractor-trailer record: crew per unit. -/
def tractor_crew : ℚ := 1
/-- Tractor-trailer record: tractors required per STS crane (floor-division divisor). -/
def tractor_required : ℕ := 5
/-- Tractor-trailer record: fuel consumption per box move. -/
def tractor_fuel_consumption : ℚ := 2
/-- Tractor-trailer record: non-essential moves factor is absent from
container_defaults.py. Modelled from the spec: the tractor move count is the
box count scaled by a configuration factor, so it is injected (see Missing). -/
def tractor_delivery_note : ℚ := 0

/-- Labour record (container_defaults.labour_data): daily shifts. -/
def labour_daily_shifts : ℚ := 5

/-- Gate record (container_defaults.gate_data): delivery time. -/
def gate_delivery_time : ℤ := 1
/-- Gate record: unit rate. -/
def gate_unit_rate : ℚ := 30000
/-- Gate record: mobilisation cost. -/
def gate_mobilisation : ℚ := 5000
/-- Gate record: maintenance percentage. -/
def gate_maintenance_perc : ℚ := 2 / 100
/-- Gate record: crew. -/
def gate_crew : ℚ := 2
/-- Gate record: canopy cost per square metre. -/
def gate_canopy_costs : ℚ := 250
/-- Gate record: area. -/
def gate_area : ℚ := 1155 / 4
/-- Gate record: design capacity. -/
def gate_design_capacity : ℚ := 98 / 100
/-- Gate record: exit inspection time in minutes. -/
def gate_exit_inspection_time : ℚ := 2
/-- Gate record: entry inspection time in minutes. -/
def gate_entry_inspection_time : ℚ := 2
/-- Gate record: peak hour factor. -/
def gate_peak_hour : ℚ := 1 / 4
/-- Gate record: peak day factor. -/
def gate_peak_day : ℚ := 1 / 10
/-- Gate record: peak factor. -/
def gate_peak_factor : ℚ := 6 / 5
/-- Gate record: truck moves per box. -/
def gate_truck_moves : ℚ := 3 / 4
/-- Gate record: gate-minute capacity per gate. -/
def gate_capacity : ℚ := 60

/-- Laden container record (container_defaults.laden_container_data). -/
def laden_teu_factor : ℚ := 155 / 100
/-- Laden container record: dwell time in days. -/
def laden_dwell_time : ℚ := 4
/-- Laden container record: peak factor. -/
def laden_peak_factor : ℚ := 6 / 5
/-- Laden container record: stack occupancy fraction. -/
def laden_stack_occ : ℚ := 8 / 10

/-- Reefer container record (container_defaults.reefer_container_data). -/
def reefer_teu_factor : ℚ := 175 / 100
/-- Reefer container record: dwell time in days. -/
def reefer_dwell_time : ℚ := 4
/-- Reefer container record: peak factor. -/
def reefer_peak_factor : ℚ := 6 / 5
/-- Reefer container record: stack occupancy fraction. -/
def reefer_stack_occ : ℚ := 8 / 10

/-- Empty container record (container_defaults.empty_container_data). -/
def empty_teu_factor : ℚ := 155 / 100
/-- Empty container record: dwell time in days. -/
def empty_dwell_time : ℚ := 10
/-- Empty container record: peak factor. -/
def empty_peak_factor : ℚ := 6 / 5
/-- Empty container record: stack occupancy fraction. -/
def empty_stack_occ : ℚ := 7 / 10

/-- OOG container record (container_defaults.oog_container_data). -/
def oog_teu_factor : ℚ := 155 / 100
/-- OOG container record: dwell time in days. -/
def oog_dwell_time : ℚ := 5
/-- OOG container record: peak factor. -/
def oog_peak_factor : ℚ := 6 / 5
/-- OOG container record: stack occupancy fraction. -/
def oog_stack_occ : ℚ := 9 / 10

-- *** WACC (System.WACC_nominal and System.WACC_real) ***

/-- WACC_nominal as computed by System.WACC_nominal: the tax factor (1 - Tc)
multiplies the whole gearing-weighted average of the equity and debt returns. -/
def WACC_nominal (Gearing Re Rd Tc : ℚ) : ℚ :=
  let E := 100 - Gearing
  let D := Gearing
  ((E / (E + D)) * Re + (D / (E + D)) * Rd) * (1 - Tc)

/-- Default arguments of System.WACC_nominal (Gearing=60, Re=.10, Rd=.30, Tc=.28). -/
def WACC_nominal_default : ℚ := WACC_nominal 60 (10 / 100) (30 / 100) (28 / 100)

/-- WACC_real as computed by System.WACC_real: it always applies
WACC_nominal with its default arguments. -/
def WACC_real (inflation : ℚ) : ℚ :=
  (WACC_nominal_default + 1) / (inflation + 1) - 1

/-- Default argument of System.WACC_real (inflation=0.02). -/
def WACC_real_default : ℚ := WACC_real (2 / 100)

/-- Textbook WACC written exactly as claim C5 words it: the corporate-tax
shield is applied to the debt term only.  This definition follows the spec,
not the source, and is compared against WACC_nominal. -/
def WACC_nominal_spec (Gearing Re Rd Tc : ℚ) : ℚ :=
  let E := 100 - Gearing
  let D := Gearing
  (E / (E + D)) * Re + (D / (E + D)) * Rd * (1 - Tc)

-- *** Element cash-flow dataframe (System.add_cashflow_data_to_element) ***

/-- One row of an element cash-flow dataframe: the year and the six cost
columns the compiler and the later energy/fuel/labour passes can write. -/
structure CashRow where
  year : ℤ
  capex : ℚ
  maintenance : ℚ
  insurance : ℚ
  labour : ℚ
  energy : ℚ
  fuel : ℚ
deriving DecidableEq, Repr

/-- An element cash-flow dataframe is the list of its rows, one per
lifecycle year. -/
abbrev CashDF := List CashRow

/-- Years of the planning horizon, range(startyear, startyear + lifecycle). -/
def sim_years (startyear : ℤ) (lifecycle : ℕ) : List ℤ :=
  (List.range lifecycle).map (fun (i : ℕ) => startyear + (i : ℤ))

/-- add_cashflow_data_to_element: build the per-element dataframe over the
lifecycle years.  Capex: delivery time greater than 1 books 60 percent two
years before year_online and 40 percent one year before, otherwise 100
percent one year before.  Maintenance, insurance and labour are booked at
every year at or after year_online when the attribute is truthy (nonzero);
remaining cells are filled with zero.  Energy and fuel start at zero and are
written later by the cost passes. -/
def add_cashflow_data_to_element (startyear : ℤ) (lifecycle : ℕ)
    (capex maintenance insurance labour : ℚ)
    (year_online year_delivery : ℤ) : CashDF :=
  (sim_years startyear lifecycle).map (fun y =>
    { year := y
      capex :=
        if year_delivery > 1 then
          if y = year_online - 2 then (6 / 10) * capex
          else if y = year_online - 1 then (4 / 10) * capex
          else 0
        else
          if y = year_online - 1 then capex else 0
      maintenance := if maintenance ≠ 0 ∧ y ≥ year_online then maintenance else 0
      insurance := if insurance ≠ 0 ∧ y ≥ year_online then insurance else 0
      labour := if labour ≠ 0 ∧ y ≥ year_online then labour else 0
      energy := 0
      fuel := 0 })

-- *** Terminal objects (class hierarchy of container_objects, modelled as a
-- tagged variant type; the spec prescribes exactly this representation) ***

/-- Vessel class tag (the type attribute checked by calculate_vessel_calls). -/
inductive VesselType
  | handysize
  | handymax
  | panamax
deriving DecidableEq, Repr

/-- Stacking technology selector (the stack_equipment and laden_stack
configuration strings rtg, rmg, sc, rs). -/
inductive StackKind
  | rtg
  | rmg
  | sc
  | rs
deriving DecidableEq, Repr

/-- Python exception kinds the modelled code can raise. -/
inductive PyErr
  | nameError
  | zeroDivisionError
  | valueError
  | fuelExhausted
deriving DecidableEq, Repr

/-- Infrastructure element of the asset registry.  Every cost-bearing variant
carries its year_online and the cash-flow dataframe attached at investment
time; an OOG stack carries an optional dataframe because the source attaches
one only when the decision year is not the start year.  Commodity and vessel
records live in the same registry list, as in the source.  Attribute values
the source never sets on a variant (for example labour on a quay) are zero,
following the spec statement that operating-cost fields are optional and zero
by default. -/
inductive Element
  | berth (year_online : ℤ) (max_cranes : ℕ)
  | quay_wall (year_online : ℤ) (land_use : ℚ) (df : CashDF)
  | cyclic_unloader (year_online : ℤ) (effective_capacity consumption : ℚ) (df : CashDF)
  | horizontal_transport (year_online : ℤ) (fuel_consumption : ℚ) (df : CashDF)
  | empty_handler (year_online : ℤ) (fuel_consumption : ℚ) (df : CashDF)
  | laden_stack (year_online : ℤ) (capacity land_use reefers_present : ℚ) (df : CashDF)
  | empty_stack (year_online : ℤ) (capacity land_use : ℚ) (df : CashDF)
  | oog_stack (year_online : ℤ) (capacity land_use : ℚ) (df : Option CashDF)
  | stack_equipment (year_online : ℤ) (fuel_consumption power_consumption : ℚ) (df : CashDF)
  | gate (year_online : ℤ) (capacity land_use : ℚ) (df : CashDF)
  | general_services (year_online : ℤ) (land_use : ℚ) (df : CashDF)
  | commodity (handling_fee hs_perc hm_perc pm_perc : ℚ) (scenario_data : List (ℤ × ℚ))
  | vessel (vtype : VesselType) (call_size : ℚ)
deriving DecidableEq, Repr

namespace Element

/-- Discriminator used to compare registry profiles (element types). -/
inductive Kind
  | berth
  | quay_wall
  | cyclic_unloader
  | horizontal_transport
  | empty_handler
  | laden_stack
  | empty_stack
  | oog_stack
  | stack_equipment
  | gate
  | general_services
  | commodity
  | vessel
deriving DecidableEq, Repr

/-- Kind of an element. -/
def kind : Element → Kind
  | .berth .. => .berth
  | .quay_wall .. => .quay_wall
  | .cyclic_unloader .. => .cyclic_unloader
  | .horizontal_transport .. => .horizontal_transport
  | .empty_handler .. => .empty_handler
  | .laden_stack .. => .laden_stack
  | .empty_stack .. => .empty_stack
  | .oog_stack .. => .oog_stack
  | .stack_equipment .. => .stack_equipment
  | .gate .. => .gate
  | .general_services .. => .general_services
  | .commodity .. => .commodity
  | .vessel .. => .vessel

/-- Year the element comes online (zero for the variants that have none). -/
def year_online : Element → ℤ
  | .berth yo _ => yo
  | .quay_wall yo _ _ => yo
  | .cyclic_unloader yo _ _ _ => yo
  | .horizontal_transport yo _ _ => yo
  | .empty_handler yo _ _ => yo
  | .laden_stack yo _ _ _ _ => yo
  | .empty_stack yo _ _ _ => yo
  | .oog_stack yo _ _ _ => yo
  | .stack_equipment yo _ _ _ => yo
  | .gate yo _ _ _ => yo
  | .general_services yo _ _ => yo
  | .commodity .. => 0
  | .vessel .. => 0

end Element

-- *** Registry queries (System.find_elements specialised per class) ***

/-- Cranes in the registry: year_online, effective capacity and consumption. -/
def crane_list (es : List Element) : List (ℤ × ℚ × ℚ) :=
  es.filterMap fun e => match e with
    | .cyclic_unloader yo eff con _ => some (yo, eff, con)
    | _ => none

/-- Berths in the registry: year_online and crane slots. -/
def berth_list (es : List Element) : List (ℤ × ℕ) :=
  es.filterMap fun e => match e with
    | .berth yo mc => some (yo, mc)
    | _ => none

/-- Quay walls in the registry: year_online and land use. -/
def quay_list (es : List Element) : List (ℤ × ℚ) :=
  es.filterMap fun e => match e with
    | .quay_wall yo lu _ => some (yo, lu)
    | _ => none

/-- Horizontal transport units in the registry: year_online. -/
def tractor_list (es : List Element) : List ℤ :=
  es.filterMap fun e => match e with
    | .horizontal_transport yo _ _ => some yo
    | _ => none

/-- Empty handlers in the registry: year_online. -/
def empty_handler_list (es : List Element) : List ℤ :=
  es.filterMap fun e => match e with
    | .empty_handler yo _ _ => some yo
    | _ => none

/-- Laden stacks in the registry: year_online, capacity, land use. -/
def laden_stack_list (es : List Element) : List (ℤ × ℚ × ℚ) :=
  es.filterMap fun e => match e with
    | .laden_stack yo cap lu _ _ => some (yo, cap, lu)
    | _ => none

/-- Empty stacks in the registry: year_online, capacity, land use. -/
def empty_stack_list (es : List Element) : List (ℤ × ℚ × ℚ) :=
  es.filterMap fun e => match e with
    | .empty_stack yo cap lu _ => some (yo, cap, lu)
    | _ => none

/-- OOG stacks in the registry: year_online, capacity, land use. -/
def oog_stack_list (es : List Element) : List (ℤ × ℚ × ℚ) :=
  es.filterMap fun e => match e with
    | .oog_stack yo cap lu _ => some (yo, cap, lu)
    | _ => none

/-- Stack equipment units in the registry: year_online. -/
def stack_equipment_list (es : List Element) : List ℤ :=
  es.filterMap fun e => match e with
    | .stack_equipment yo _ _ _ => some yo
    | _ => none

/-- Gates in the registry: year_online, capacity, land use. -/
def gate_list (es : List Element) : List (ℤ × ℚ × ℚ) :=
  es.filterMap fun e => match e with
    | .gate yo cap lu _ => some (yo, cap, lu)
    | _ => none

/-- General-services blocks in the registry: year_online and land use. -/
def general_services_list (es : List Element) : List (ℤ × ℚ) :=
  es.filterMap fun e => match e with
    | .general_services yo lu _ => some (yo, lu)
    | _ => none

/-- Commodities in the registry: handling fee, vessel-class percentages,
scenario data. -/
def commodity_list (es : List Element) : List (ℚ × ℚ × ℚ × ℚ × List (ℤ × ℚ)) :=
  es.filterMap fun e => match e with
    | .commodity fee hs hm pm sd => some (fee, hs, hm, pm, sd)
    | _ => none

/-- Call size of the last vessel of the given type in the registry (the
source loop reassigns the call count for every matching vessel, so the last
one wins), none when the type is absent. -/
def vessel_call_size (es : List Element) (t : VesselType) : Option ℚ :=
  (es.filterMap fun e => match e with
    | .vessel vt cs => if vt = t then some cs else none
    | _ => none).getLast?

-- *** Demand and traffic translation ***

/-- Pandas lookup scenario_data.loc[year == y].item() wrapped by a bare
except: it yields a value only when exactly one row matches, anything else
(missing year, duplicate year) takes the silent except branch. -/
def scenario_lookup (rows : List (ℤ × ℚ)) (year : ℤ) : Option ℚ :=
  match rows.filter (fun r => r.1 = year) with
  | [r] => some r.2
  | _ => none

/-- calculate_vessel_calls: fold the commodity scenarios into per-class
volumes (a missing year contributes nothing), then convert each volume to a
call count by ceiling division by the call size of the registry vessel of
that class.  When a vessel class is absent from the registry the source
leaves its call variable unbound and raises NameError. -/
def calculate_vessel_calls (es : List Element) (year : ℤ) :
    Except PyErr (ℤ × ℤ × ℤ × ℤ × ℚ) :=
  let vols := (commodity_list es).foldl
    (fun (acc : ℚ × ℚ × ℚ × ℚ) c =>
      match scenario_lookup c.2.2.2.2 year with
      | some volume =>
          (acc.1 + volume * c.2.1 / 100,
           acc.2.1 + volume * c.2.2.1 / 100,
           acc.2.2.1 + volume * c.2.2.2.1 / 100,
           acc.2.2.2 + volume)
      | none => acc)
    (0, 0, 0, 0)
  match vessel_call_size es .handysize, vessel_call_size es .handymax,
      vessel_call_size es .panamax with
  | some cs1, some cs2, some cs3 =>
      let handysize_calls := py_ceil (vols.1 / cs1)
      let handymax_calls := py_ceil (vols.2.1 / cs2)
      let panamax_calls := py_ceil (vols.2.2.1 / cs3)
      .ok (handysize_calls, handymax_calls, panamax_calls,
        handysize_calls + handymax_calls + panamax_calls, vols.2.2.2)
  | _, _, _ => .error .nameError

/-- throughput_characteristics: the source assigns the local variable volume
only inside the per-commodity try block, so after the loop the variable holds
the volume of the last commodity whose scenario contains the year; when no
commodity has the year the variable is unbound and the later use raises
UnboundLocalError.  On success the volume is split by the four container
category percentages. -/
def throughput_characteristics (laden_perc reefer_perc empty_perc oog_perc : ℚ)
    (es : List Element) (year : ℤ) : Except PyErr (ℚ × ℚ × ℚ × ℚ) :=
  let volume := (commodity_list es).foldl
    (fun (acc : Option ℚ) c =>
      match scenario_lookup c.2.2.2.2 year with
      | some v => some v
      | none => acc)
    none
  match volume with
  | some v => .ok (v * laden_perc, v * reefer_perc, v * empty_perc, v * oog_perc)
  | none => .error .nameError

-- *** Berth occupancy (System.calculate_berth_occupancy) ***

/-- Planned service rate: the effective capacities of all cranes summed. -/
def service_rate_planned (es : List Element) : ℚ :=
  ((crane_list es).map (fun c => c.2.1)).sum

/-- Online service rate: the effective capacities of the cranes with the
year at or past their year_online summed. -/
def service_rate_online (es : List Element) (year : ℤ) : ℚ :=
  (((crane_list es).filter (fun c => year ≥ c.1)).map (fun c => c.2.1)).sum

/-- Uncapped planned berth occupancy: per class, calls times (call size over
the planned service rate plus mooring time over the berth count), summed and
divided by the operational hours. -/
def berth_occupancy_planned_ratio (operational_hours : ℚ) (es : List Element)
    (handysize_calls handymax_calls panamax_calls : ℤ) : ℚ :=
  let sr := service_rate_planned es
  let nr_berths : ℚ := ((berth_list es).length : ℚ)
  ((handysize_calls : ℚ) *
      (handysize_call_size / sr + handysize_mooring_time / nr_berths) +
    ((handymax_calls : ℚ) *
        (handymax_call_size / sr + handymax_mooring_time / nr_berths) +
      ((panamax_calls : ℚ) *
          (panamax_call_size / sr + panamax_mooring_time / nr_berths) + 0))) /
    operational_hours

/-- Uncapped planned crane occupancy: the berth formula without the mooring
term. -/
def crane_occupancy_planned_ratio (operational_hours : ℚ) (es : List Element)
    (handysize_calls handymax_calls panamax_calls : ℤ) : ℚ :=
  let sr := service_rate_planned es
  ((handysize_calls : ℚ) * (handysize_call_size / sr) +
    ((handymax_calls : ℚ) * (handymax_call_size / sr) +
      ((panamax_calls : ℚ) * (panamax_call_size / sr) + 0))) / operational_hours

/-- Uncapped online berth occupancy: the source adds the full mooring time
for the handysize and handymax classes and divides the mooring time by the
berth count only for the panamax class. -/
def berth_occupancy_online_ratio (operational_hours : ℚ) (es : List Element)
    (year : ℤ) (handysize_calls handymax_calls panamax_calls : ℤ) : ℚ :=
  let sr := service_rate_online es year
  let nr_berths : ℚ := ((berth_list es).length : ℚ)
  ((handysize_calls : ℚ) * (handysize_call_size / sr + handysize_mooring_time) +
    ((handymax_calls : ℚ) * (handymax_call_size / sr + handymax_mooring_time) +
      ((panamax_calls : ℚ) *
          (panamax_call_size / sr + panamax_mooring_time / nr_berths) + 0))) /
    operational_hours

/-- Uncapped online crane occupancy. -/
def crane_occupancy_online_ratio (operational_hours : ℚ) (es : List Element)
    (year : ℤ) (handysize_calls handymax_calls panamax_calls : ℤ) : ℚ :=
  let sr := service_rate_online es year
  ((handysize_calls : ℚ) * (handysize_call_size / sr) +
    ((handymax_calls : ℚ) * (handymax_call_size / sr) +
      ((panamax_calls : ℚ) * (panamax_call_size / sr) + 0))) / operational_hours

/-- calculate_berth_occupancy: with no cranes all four outputs are the
infinite sentinel.  Otherwise the planned occupancies are the uncapped
ratios; the online occupancies are the online ratios capped at 1 when the
online service rate is nonzero and the infinite sentinel otherwise.  Output
order: berth planned, berth online, crane planned, crane online. -/
def calculate_berth_occupancy (operational_hours : ℚ) (es : List Element)
    (year : ℤ) (handysize_calls handymax_calls panamax_calls : ℤ) :
    PFloat × PFloat × PFloat × PFloat :=
  if crane_list es = [] then (none, none, none, none)
  else
    let berth_occupancy_planned : PFloat :=
      some (berth_occupancy_planned_ratio operational_hours es handysize_calls
        handymax_calls panamax_calls)
    let crane_occupancy_planned : PFloat :=
      some (crane_occupancy_planned_ratio operational_hours es handysize_calls
        handymax_calls panamax_calls)
    if service_rate_online es year ≠ 0 then
      (berth_occupancy_planned,
        some (min (berth_occupancy_online_ratio operational_hours es year
          handysize_calls handymax_calls panamax_calls) 1),
        crane_occupancy_planned,
        some (min (crane_occupancy_online_ratio operational_hours es year
          handysize_calls handymax_calls panamax_calls) 1))
    else
      (berth_occupancy_planned, none, crane_occupancy_planned, none)

-- *** Default records with several fields (container_defaults.py) ***

/-- Stack default record (the rtg/rmg/sc/rs laden, empty and oog stack data
dictionaries of container_defaults.py). -/
structure StackData where
  delivery_time : ℤ
  mobilisation : ℚ
  maintenance_perc : ℚ
  width : ℚ
  height : ℚ
  length : ℚ
  capacity : ℚ
  gross_tgs : ℚ
  area_factor : ℚ
  pavement : ℚ
  drainage : ℚ
deriving DecidableEq, Repr

/-- container_defaults.rtg_stack_data. -/
def rtg_stack_data : StackData :=
  ⟨1, 25000, 1 / 10, 6, 5, 30, 900, 18, 2.04, 200, 50⟩

/-- container_defaults.rmg_stack_data. -/
def rmg_stack_data : StackData :=
  ⟨1, 50000, 1 / 10, 6, 5, 40, 1200, 18.67, 2.79, 200, 50⟩

/-- container_defaults.sc_stack_data. -/
def sc_stack_data : StackData :=
  ⟨1, 50000, 1 / 10, 48, 4, 20, 3840, 26.46, 1.45, 200, 50⟩

/-- container_defaults.rs_stack_data. -/
def rs_stack_data : StackData :=
  ⟨1, 10000, 1 / 10, 4, 4, 20, 320, 18, 3.23, 200, 50⟩

/-- container_defaults.empty_stack_data. -/
def empty_stack_data : StackData :=
  ⟨1, 25000, 1 / 10, 8, 6, 10, 480, 18, 2.04, 200, 50⟩

/-- container_defaults.oog_stack_data. -/
def oog_stack_data : StackData :=
  ⟨1, 25000, 1 / 10, 10, 1, 10, 100, 64, 1.05, 200, 50⟩

/-- Laden stack record selected by the laden_stack configuration string. -/
def laden_stack_data : StackKind → StackData
  | .rtg => rtg_stack_data
  | .rmg => rmg_stack_data
  | .sc => sc_stack_data
  | .rs => rs_stack_data

/-- Stack equipment default record (container_defaults rtg/rmg/sc/rs data). -/
structure StackEqData where
  delivery_time : ℤ
  unit_rate : ℚ
  mobilisation : ℚ
  maintenance_perc : ℚ
  insurance_perc : ℚ
  crew : ℚ
  fuel_consumption : ℚ
  power_consumption : ℚ
  required : ℕ
deriving DecidableEq, Repr

/-- container_defaults.rtg_data. -/
def rtg_data : StackEqData := ⟨0, 1400000, 5000, 1 / 10, 0, 1, 1, 0, 3⟩

/-- container_defaults.rmg_data. -/
def rmg_data : StackEqData := ⟨0, 2500000, 5000, 1 / 10, 0, 0, 0, 15, 1⟩

/-- container_defaults.sc_data. -/
def sc_data : StackEqData := ⟨0, 2000000, 5000, 1 / 10, 0, 0, 15, 0, 5⟩

/-- container_defaults.rs_data. -/
def rs_data : StackEqData := ⟨0, 500000, 5000, 1 / 10, 0, 2, 1, 0, 4⟩

/-- Stack equipment record selected by the stack_equipment configuration
string. -/
def stack_equipment_data : StackKind → StackEqData
  | .rtg => rtg_data
  | .rmg => rmg_data
  | .sc => sc_data
  | .rs => rs_data

/-- Crane default record handed to System as crane_type_defaults (for the STS
crane the numeric fields come from container_defaults.sts_crane_data).  The
effective_capacity field is Modelled from the spec: it is an attribute
computed by the Cyclic_Unloader class of container_objects.py, which is not
part of src/, and the spec only says crane capacities are summed into a
service rate, so the attribute is injected as configuration. -/
structure CraneDefaults where
  delivery_time : ℤ
  unit_rate : ℚ
  mobilisation_perc : ℚ
  maintenance_perc : ℚ
  insurance_perc : ℚ
  consumption : ℚ
  crew : ℚ
  effective_capacity : ℚ
deriving DecidableEq, Repr

/-- Modelled from the spec: configuration records and record fields that the
source reads but that are absent from src/ (the container_objects.py class
bodies and several container_defaults entries are not in the repository
snapshot): the labour salary fields, the quay apron pavement rate, the whole
empty-handler and general-services records, the stack household/digout and
reefer fields, the tractor non-essential-moves factor, and the float power
with the non-integer Gijt coefficient (not exactly representable over the
rationals, so it is injected as a function).  The spec declares all default
tables to be injectable configuration records, which is how they are
modelled here. -/
structure Missing where
  blue_collar_salary : ℚ
  white_collar_salary : ℚ
  quay_apron_pavement : ℚ
  eh_unit_rate : ℚ
  eh_mobilisation : ℚ
  eh_maintenance_perc : ℚ
  eh_crew : ℚ
  eh_fuel_consumption : ℚ
  eh_required : ℕ
  eh_delivery_time : ℤ
  gs_office : ℚ
  gs_workshop : ℚ
  gs_inspection : ℚ
  gs_repair : ℚ
  gs_office_cost : ℚ
  gs_workshop_cost : ℚ
  gs_inspection_cost : ℚ
  gs_repair_cost : ℚ
  gs_lighting_mast_cost : ℚ
  gs_lighting_mast_required : ℚ
  gs_fuel_station_cost : ℚ
  gs_firefight_cost : ℚ
  gs_maintenance_tools_cost : ℚ
  gs_software_cost : ℚ
  gs_electrical_station_cost : ℚ
  gs_general_maintenance : ℚ
  gs_delivery_time : ℤ
  gs_crew_required : ℚ
  gs_ceo : ℚ
  gs_secretary : ℚ
  gs_administration : ℚ
  gs_hr : ℚ
  gs_commercial : ℚ
  gs_operations : ℚ
  gs_engineering : ℚ
  gs_security : ℚ
  gs_lighting_consumption : ℚ
  gs_general_consumption : ℚ
  stack_household : ℚ
  stack_digout_margin : ℚ
  stack_reefer_factor : ℚ
  stack_reefers_present : ℚ
  stack_reefer_rack : ℚ
  empty_stack_household : ℚ
  empty_stack_digout : ℚ
  tractor_non_essential_moves : ℚ
  pow_Gijt : ℚ → ℚ

/-- Construction inputs of a System instance (System.__init__): the scenario
and configuration of one simulation run.  The field transhipment_share is the
transhipment_ratio argument of the source. -/
structure Config where
  startyear : ℤ
  lifecycle : ℕ
  operational_hours : ℚ
  stack_equipment : StackKind
  laden_stack : StackKind
  elements : List Element
  crane_type_defaults : CraneDefaults
  allowable_berth_occupancy : ℚ
  allowable_dwelltime : ℚ
  laden_perc : ℚ
  reefer_perc : ℚ
  empty_perc : ℚ
  oog_perc : ℚ
  transhipment_share : ℚ
  energy_price : ℚ
  fuel_price : ℚ
  land_price : ℚ
  missing : Missing

/-- Python integer floor division operational_hours // 24 used by the stack
capacity calculators. -/
def operational_days (cfg : Config) : ℚ := ((cfg.operational_hours / 24).floor : ℚ)

-- *** Throughput chain ***

/-- calculate_throughput: demand is the sum of the four category volumes;
planned quay capacity scales every crane capacity by operational hours, the
allowable occupancy and 0.7, online capacity scales online cranes by
operational hours; the returned pair is (throughput_online,
throughput_planned), each the minimum of capacity and demand.  The storage
capacity sums the source also computes are dead values (never returned nor
used) and are omitted. -/
def calculate_throughput (cfg : Config) (es : List Element) (year : ℤ) :
    Except PyErr (ℚ × ℚ) := do
  let tc ← throughput_characteristics cfg.laden_perc cfg.reefer_perc
    cfg.empty_perc cfg.oog_perc es year
  let demand := tc.1 + tc.2.1 + tc.2.2.2 + tc.2.2.1
  let cs := crane_list es
  let quay_capacity_planned : ℚ :=
    (cs.map (fun c =>
      c.2.1 * cfg.operational_hours * cfg.allowable_berth_occupancy * 0.7)).sum
  let quay_capacity_online : ℚ :=
    ((cs.filter (fun c => year ≥ c.1)).map
      (fun c => c.2.1 * cfg.operational_hours)).sum
  pure (min quay_capacity_online demand, min quay_capacity_planned demand)

/-- throughput_box: split the online throughput by the category percentages
and divide by the per-category TEU factors to count boxes; returns the four
per-category box counts and their sum. -/
def throughput_box (cfg : Config) (es : List Element) (year : ℤ) :
    Except PyErr (ℚ × ℚ × ℚ × ℚ × ℚ) := do
  let tp ← calculate_throughput cfg es year
  let volume := tp.1
  let laden_box := volume * cfg.laden_perc / laden_teu_factor
  let reefer_box := volume * cfg.reefer_perc / reefer_teu_factor
  let empty_box := volume * cfg.empty_perc / empty_teu_factor
  let oog_box := volume * cfg.oog_perc / oog_teu_factor
  pure (laden_box, reefer_box, empty_box, oog_box,
    laden_box + reefer_box + empty_box + oog_box)

/-- box_moves: STS moves equal the box throughput; tractor moves scale it by
the non-essential-moves factor; empty moves scale the empty boxes by the
household and digout factors; laden and reefer stack moves split the boxes
into transhipment and import/export shares with the per-share move factors
derived from the laden stack record.  Returns (sts_moves, stack_moves,
empty_moves, tractor_moves). -/
def box_moves (cfg : Config) (es : List Element) (year : ℤ) :
    Except PyErr (ℚ × ℚ × ℚ × ℚ) := do
  let tb ← throughput_box cfg es year
  let laden_box := tb.1
  let reefer_box := tb.2.1
  let empty_box := tb.2.2.1
  let tbox := tb.2.2.2.2
  let sts_moves := tbox
  let tractor_moves := tbox * cfg.missing.tractor_non_essential_moves
  let empty_moves :=
    empty_box * cfg.missing.empty_stack_household * cfg.missing.empty_stack_digout
  let stack := laden_stack_data cfg.laden_stack
  let digout_moves := (stack.height - 1) / 2
  let moves_i_e :=
    ((2 + cfg.missing.stack_household + digout_moves) +
      ((2 + cfg.missing.stack_household) * cfg.missing.stack_digout_margin)) / 2
  let moves_t_s :=
    0.5 * ((2 + cfg.missing.stack_household) * cfg.missing.stack_digout_margin)
  let laden_reefer_box_t_s := (laden_box + reefer_box) * cfg.transhipment_share
  let laden_reefer_box_i_e := (laden_box + reefer_box) - laden_reefer_box_t_s
  let stack_moves :=
    laden_reefer_box_i_e * moves_i_e + laden_reefer_box_t_s * moves_t_s
  pure (sts_moves, stack_moves, empty_moves, tractor_moves)

-- *** Stack capacity calculators ***

/-- laden_reefer_stack_capacity: planned capacity sums every laden stack,
online capacity only online ones; ground slots convert category TEU through
peak factor, dwell time, stack occupancy, stack height and operational days
(reefer slots additionally scale by the reefer factor); required capacity is
total ground slots times height.  Returns (planned, online, required
capacity, total ground slots, stack area, reefer slots). -/
def laden_reefer_stack_capacity (cfg : Config) (es : List Element) (year : ℤ) :
    Except PyErr (ℚ × ℚ × ℚ × ℚ × ℚ × ℚ) := do
  let stack_elements := laden_stack_list es
  let stack_capacity_planned : ℚ := (stack_elements.map (fun s => s.2.1)).sum
  let stack_capacity_online : ℚ :=
    ((stack_elements.filter (fun s => year ≥ s.1)).map (fun s => s.2.1)).sum
  let tc ← throughput_characteristics cfg.laden_perc cfg.reefer_perc
    cfg.empty_perc cfg.oog_perc es year
  let laden_teu := tc.1
  let reefer_teu := tc.2.1
  let stack := laden_stack_data cfg.laden_stack
  let od := operational_days cfg
  let laden_ground_slots :=
    laden_teu * laden_peak_factor * laden_dwell_time / laden_stack_occ /
      stack.height / od
  let reefer_ground_slots :=
    reefer_teu * reefer_peak_factor * reefer_dwell_time / reefer_stack_occ /
      stack.height / od * cfg.missing.stack_reefer_factor
  let total_ground_slots := laden_ground_slots + reefer_ground_slots
  let reefer_slots := reefer_ground_slots * stack.height
  let required_capacity := (laden_ground_slots + reefer_ground_slots) * stack.height
  let laden_stack_area := total_ground_slots * stack.area_factor
  pure (stack_capacity_planned, stack_capacity_online, required_capacity,
    total_ground_slots, laden_stack_area, reefer_slots)

/-- empty_stack_capacity: single-category version of the stack formula for
empty containers.  Returns (planned, online, required capacity, ground
slots, stack area). -/
def empty_stack_capacity (cfg : Config) (es : List Element) (year : ℤ) :
    Except PyErr (ℚ × ℚ × ℚ × ℚ × ℚ) := do
  let stack_elements := empty_stack_list es
  let empty_capacity_planned : ℚ := (stack_elements.map (fun s => s.2.1)).sum
  let empty_capacity_online : ℚ :=
    ((stack_elements.filter (fun s => year ≥ s.1)).map (fun s => s.2.1)).sum
  let tc ← throughput_characteristics cfg.laden_perc cfg.reefer_perc
    cfg.empty_perc cfg.oog_perc es year
  let empty_teu := tc.2.2.1
  let stack := empty_stack_data
  let od := operational_days cfg
  let empty_ground_slots :=
    empty_teu * empty_peak_factor * empty_dwell_time / empty_stack_occ /
      stack.height / od
  let empty_required_capacity := empty_ground_slots * stack.height
  let empty_stack_area := empty_ground_slots * stack.area_factor
  pure (empty_capacity_planned, empty_capacity_online, empty_required_capacity,
    empty_ground_slots, empty_stack_area)

/-- oog_stack_capacity: single-category version for out-of-gauge containers,
with the extra division by the OOG TEU factor.  Returns (planned, online,
required capacity). -/
def oog_stack_capacity (cfg : Config) (es : List Element) (year : ℤ) :
    Except PyErr (ℚ × ℚ × ℚ) := do
  let stack_elements := oog_stack_list es
  let oog_capacity_planned : ℚ := (stack_elements.map (fun s => s.2.1)).sum
  let oog_capacity_online : ℚ :=
    ((stack_elements.filter (fun s => year ≥ s.1)).map (fun s => s.2.1)).sum
  let tc ← throughput_characteristics cfg.laden_perc cfg.reefer_perc
    cfg.empty_perc cfg.oog_perc es year
  let oog_teu := tc.2.2.2
  let stack := oog_stack_data
  let od := operational_days cfg
  let oog_spots :=
    oog_teu * oog_peak_factor * oog_dwell_time / oog_stack_occ /
      stack.height / od / oog_teu_factor
  pure (oog_capacity_planned, oog_capacity_online, oog_spots)

-- *** Gate minutes (System.calculate_gate_minutes) ***

/-- calculate_gate_minutes: with no gates the outputs are zero capacities and
the infinite-sentinel service rate, and no throughput is computed.  With
gates, the box throughput is translated into weekly design gate minutes via
the import/export split (half of the non-transhipment boxes each way), the
peak factors and the inspection times, and the service rate is the design
minutes over the planned gate capacity.  Returns (capacity planned, capacity
online, service rate, total design gate minutes). -/
def calculate_gate_minutes (cfg : Config) (es : List Element) (year : ℤ) :
    Except PyErr (ℚ × ℚ × PFloat × ℚ) := do
  let gs := gate_list es
  if gs = [] then
    pure (0, 0, none, 0)
  else
    let capacity_planned : ℚ := (gs.map (fun g => g.2.1)).sum
    let capacity_online : ℚ :=
      ((gs.filter (fun g => year ≥ g.1)).map (fun g => g.2.1)).sum
    let tb ← throughput_box cfg es year
    let tbox := tb.2.2.2.2
    let import_box_moves := tbox * (1 - cfg.transhipment_share) * 0.5
    let export_box_moves := tbox * (1 - cfg.transhipment_share) * 0.5
    let weeks_year : ℚ := 52
    let design_exit_gate_minutes :=
      import_box_moves * gate_truck_moves / weeks_year * gate_peak_factor *
        gate_peak_day * gate_peak_hour * gate_exit_inspection_time *
        gate_design_capacity
    let design_entry_gate_minutes :=
      export_box_moves * gate_truck_moves / weeks_year * gate_peak_factor *
        gate_peak_day * gate_peak_hour * gate_entry_inspection_time *
        gate_design_capacity
    let total_design_gate_minutes :=
      design_entry_gate_minutes + design_exit_gate_minutes
    pure (capacity_planned, capacity_online,
      some (total_design_gate_minutes / capacity_planned),
      total_design_gate_minutes)

-- *** Waiting time factor (System.waiting_time) ***

/-- Fourth-degree waiting-time polynomial of the source, by berth count. -/
def waiting_poly (a4 a3 a2 a1 a0 b : ℚ) : ℚ :=
  a4 * b ^ 4 - a3 * b ^ 3 + a2 * b ^ 2 - a1 * b + a0

/-- waiting_time factor: for 1 to 7 berths the factor is the clamped
polynomial of the online berth occupancy; an infinite online occupancy makes
the float polynomial evaluate to nan and Python max(0, nan) returns 0; for 0
or 8 and more berths the factor is the infinite sentinel. -/
def waiting_factor (berth_occupancy_online : PFloat) (berths : ℕ) : PFloat :=
  let eval := fun (a4 a3 a2 a1 a0 : ℚ) =>
    match berth_occupancy_online with
    | some b => some (max 0 (waiting_poly a4 a3 a2 a1 a0 b))
    | none => some 0
  if berths = 1 then eval 79.726 126.47 70.660 14.651 0.9218
  else if berths = 2 then eval 29.825 46.489 25.656 5.3517 0.3376
  else if berths = 3 then eval 19.362 30.388 16.791 3.5457 0.2253
  else if berths = 4 then eval 17.334 27.745 15.432 3.2725 0.2080
  else if berths = 5 then eval 11.149 17.339 9.4010 1.9687 0.1247
  else if berths = 6 then eval 10.512 16.390 8.8292 1.8368 0.1158
  else if berths = 7 then eval 8.4371 13.226 7.1446 1.4902 0.0941
  else none

-- *** Crane slot availability (System.check_crane_slot_available) ***

/-- check_crane_slot_available: true when the berths provide more crane slots
than there are cranes in the registry. -/
def check_crane_slot_available (es : List Element) : Bool :=
  ((berth_list es).map (fun b => b.2)).sum > (crane_list es).length

/-- waiting_time: recompute the vessel calls (this lookup raises NameError
when a vessel class is absent from the registry) and the berth occupancy,
then return the waiting factor from the online berth occupancy and the berth
count.  The waiting-time occupancy the source also returns is consumed by no
modelled caller and is omitted. -/
def waiting_time (cfg : Config) (es : List Element) (year : ℤ) :
    Except PyErr PFloat := do
  let vc ← calculate_vessel_calls es year
  let occ := calculate_berth_occupancy cfg.operational_hours es year vc.1
    vc.2.1 vc.2.2.1
  pure (waiting_factor occ.2.1 (berth_list es).length)

-- *** Investment routines ***

/-- Year-online rule shared by the tractor, empty handler, stack, stack
equipment and gate investments: decisions made in the very first simulated
year get one extra year of lead on top of the delivery time. -/
def first_year_lead_online (startyear year delivery : ℤ) : ℤ :=
  if year = startyear then year + delivery + 1 else year + delivery

/-- Berth added by berth_invest: year_online is the decision year plus the
berth delivery time (no first-year extra lead in the source). -/
def berth_invest_add_berth (es : List Element) (year : ℤ) : List Element :=
  es ++ [Element.berth (year + berth_delivery_time) berth_max_cranes]

/-- Quay length formula of berth_invest, selected by the number of existing
quay walls, with berths the berth count after the berth check and length_v
the governing vessel length. -/
def quay_length_rule (quay_walls berths : ℕ) (length_v : ℚ) : ℚ :=
  if quay_walls = 0 then length_v + 2 * 15
  else if quay_walls = 1 then
    1.1 * (berths : ℚ) * (length_v + 15) - (length_v + 2 * 15)
  else
    1.1 * (berths : ℚ) * (length_v + 15) - 1.1 * ((berths : ℚ) - 1) * (length_v + 15)

/-- quay_invest: compute the quay capex from the Gijt unit rate (the float
power with the non-integer Gijt coefficient is the injected pow_Gijt),
mobilisation, apron pavement and land cost, the insurance and maintenance
percentages, year_online as decision year plus quay delivery time, attach
the cash-flow dataframe and append the quay wall. -/
def quay_invest (cfg : Config) (es : List Element) (year : ℤ) (length depth : ℚ) :
    List Element :=
  let unit_rate : ℚ :=
    (py_int (quay_Gijt_constant *
      cfg.missing.pow_Gijt (depth * 2 + quay_freeboard)) : ℚ)
  let mobilisation : ℚ :=
    (py_int (max (length * unit_rate * quay_mobilisation_perc)
      quay_mobilisation_min) : ℚ)
  let apron_pavement := length * quay_apron_width * cfg.missing.quay_apron_pavement
  let cost_of_land := length * quay_apron_width * cfg.land_price
  let capex : ℚ :=
    (py_int (length * unit_rate + mobilisation + apron_pavement + cost_of_land) : ℚ)
  let insurance := unit_rate * length * quay_insurance_perc
  let maintenance := unit_rate * length * quay_maintenance_perc
  let year_online := year + quay_delivery_time
  let land_use := length * quay_apron_width
  let df := add_cashflow_data_to_element cfg.startyear cfg.lifecycle capex
    maintenance insurance 0 year_online quay_delivery_time
  es ++ [Element.quay_wall year_online land_use df]

/-- crane_invest: build the crane from the configured crane record; its
year_online is the maximum of decision year plus delivery time and the
latest quay year_online (Python max of a list that raises ValueError when no
quay exists). -/
def crane_invest (cfg : Config) (es : List Element) (year : ℤ) :
    Except PyErr (List Element) :=
  let cd := cfg.crane_type_defaults
  let unit_rate := cd.unit_rate
  let mobilisation := unit_rate * cd.mobilisation_perc
  let capex : ℚ := (py_int (unit_rate + mobilisation) : ℚ)
  let insurance := unit_rate * cd.insurance_perc
  let maintenance := unit_rate * cd.maintenance_perc
  let shift := cd.crew * labour_daily_shifts
  let labour := shift * cfg.missing.blue_collar_salary
  match ((quay_list es).map (fun q => q.1)).max? with
  | none => .error .valueError
  | some latest_quay =>
      let year_online := max (year + cd.delivery_time) latest_quay
      let df := add_cashflow_data_to_element cfg.startyear cfg.lifecycle capex
        maintenance insurance labour year_online cd.delivery_time
      .ok (es ++ [Element.cyclic_unloader year_online cd.effective_capacity
        cd.consumption df])

/-- One berth_invest loop: while the planned berth occupancy exceeds the
allowable occupancy, add a berth when no crane slot is free, then add a quay
when berths outnumber quay walls (sized by quay_length_rule over the largest
vessel LOA and a depth from the largest draft plus allowances), then add a
crane when a slot is free.  The fuel argument bounds the recursion depth of
the source while loop. -/
def berth_invest_loop (cfg : Config) (year : ℤ)
    (handysize_calls handymax_calls panamax_calls : ℤ) :
    ℕ → List Element → Except PyErr (List Element)
  | 0, _ => .error .fuelExhausted
  | fuel + 1, es =>
    let occ := calculate_berth_occupancy cfg.operational_hours es year
      handysize_calls handymax_calls panamax_calls
    if pGtQ occ.1 cfg.allowable_berth_occupancy then
      let es1 := if check_crane_slot_available es then es
        else berth_invest_add_berth es year
      let berths := (berth_list es1).length
      let quay_walls := (quay_list es1).length
      let es2 :=
        if berths > quay_walls then
          let length_v := max (max handysize_LOA handymax_LOA) panamax_LOA
          let draft := max (max handysize_draft handymax_draft) panamax_draft
          let length := quay_length_rule quay_walls berths length_v
          let depth := draft + quay_max_sinkage + quay_wave_motion + quay_safety_margin
          quay_invest cfg es1 year length depth
        else es1
      match (if check_crane_slot_available es2 then crane_invest cfg es2 year
        else .ok es2) with
      | .error e => .error e
      | .ok es3 =>
          berth_invest_loop cfg year handysize_calls handymax_calls
            panamax_calls fuel es3
    else .ok es

/-- berth_invest entry point: before the investment loop the source
unconditionally recomputes the berth occupancy and calls waiting_time (line
541); the values feed only debug printing, but the waiting_time call raises
NameError when a vessel class is absent from the registry, so it is kept in
the embedding as an effectful step. -/
def berth_invest (cfg : Config) (fuel : ℕ) (es : List Element) (year : ℤ)
    (handysize_calls handymax_calls panamax_calls : ℤ) :
    Except PyErr (List Element) := do
  let _ ← waiting_time cfg es year
  berth_invest_loop cfg year handysize_calls handymax_calls panamax_calls
    fuel es

/-- Tractor appended by horizontal_transport_invest in the given decision
year: capex from unit rate plus mobilisation, maintenance percentage, crew
labour, year_online with the first-year extra lead. -/
def add_tractor (cfg : Config) (es : List Element) (year : ℤ) : List Element :=
  let capex : ℚ := (py_int (tractor_unit_rate + tractor_mobilisation) : ℚ)
  let maintenance := tractor_unit_rate * tractor_maintenance_perc
  let shift := tractor_crew * labour_daily_shifts
  let labour := shift * cfg.missing.blue_collar_salary
  let year_online := first_year_lead_online cfg.startyear year tractor_delivery_time
  let df := add_cashflow_data_to_element cfg.startyear cfg.lifecycle capex
    maintenance 0 labour year_online tractor_delivery_time
  es ++ [Element.horizontal_transport year_online tractor_fuel_consumption df]

/-- Inner while loop of horizontal_transport_invest: the crane count is fixed
for the whole loop; the tractor count starts as the online tractor count and
is re-read as the total tractor count after every addition. -/
def horizontal_transport_loop (cfg : Config) (year : ℤ) (sts_cranes : ℕ) :
    ℕ → ℕ → List Element → List Element
  | 0, _, es => es
  | fuel + 1, tractor_online, es =>
    if sts_cranes > tractor_online / tractor_required then
      let es2 := add_tractor cfg es year
      horizontal_transport_loop cfg year sts_cranes fuel
        (tractor_list es2).length es2
    else es

/-- horizontal_transport_invest: count online cranes and online tractors,
then (unless the straddle-carrier variant handles its own transport) add
tractors while the online cranes exceed the tractor count floor-divided by
the required ratio. -/
def horizontal_transport_invest (cfg : Config) (fuel : ℕ) (es : List Element)
    (year : ℤ) : List Element :=
  let sts_cranes := ((crane_list es).filter (fun c => year ≥ c.1)).length
  let tractor_online := ((tractor_list es).filter (fun yo => year ≥ yo)).length
  if cfg.stack_equipment ≠ .sc then
    horizontal_transport_loop cfg year sts_cranes fuel tractor_online es
  else es

/-- Empty handler appended by empty_handler_invest. -/
def add_empty_handler (cfg : Config) (es : List Element) (year : ℤ) :
    List Element :=
  let m := cfg.missing
  let capex : ℚ := (py_int (m.eh_unit_rate + m.eh_mobilisation) : ℚ)
  let maintenance := m.eh_unit_rate * m.eh_maintenance_perc
  let shift := m.eh_crew * labour_daily_shifts
  let labour := shift * m.blue_collar_salary
  let year_online := first_year_lead_online cfg.startyear year m.eh_delivery_time
  let df := add_cashflow_data_to_element cfg.startyear cfg.lifecycle capex
    maintenance 0 labour year_online m.eh_delivery_time
  es ++ [Element.empty_handler year_online m.eh_fuel_consumption df]

/-- Inner while loop of empty_handler_invest: the handler count is re-read as
the total handler count after every addition. -/
def empty_handler_loop (cfg : Config) (year : ℤ) (sts_cranes : ℕ) :
    ℕ → ℕ → List Element → List Element
  | 0, _, es => es
  | fuel + 1, empty_handler_online, es =>
    if sts_cranes > empty_handler_online / cfg.missing.eh_required then
      let es2 := add_empty_handler cfg es year
      empty_handler_loop cfg year sts_cranes fuel
        (empty_handler_list es2).length es2
    else es

/-- empty_handler_invest: unlike the tractor routine, both initial counts are
total registry counts, not online counts. -/
def empty_handler_invest (cfg : Config) (fuel : ℕ) (es : List Element)
    (year : ℤ) : List Element :=
  let sts_cranes := (crane_list es).length
  let empty_handler_online := (empty_handler_list es).length
  empty_handler_loop cfg year sts_cranes fuel empty_handler_online es

/-- Laden stack appended by laden_stack_invest, with the reefer rack capex
term taken from the current reefer slot requirement. -/
def add_laden_stack (cfg : Config) (es : List Element) (year : ℤ)
    (reefer_slots : ℚ) : List Element :=
  let stack := laden_stack_data cfg.laden_stack
  let stack_ground_slots := stack.capacity / stack.height
  let land_use := stack_ground_slots * stack.gross_tgs * stack.area_factor
  let area := stack.length * stack.width
  let reefer_rack := reefer_slots * cfg.missing.stack_reefer_rack
  let capex : ℚ :=
    (py_int ((stack.pavement + stack.drainage + cfg.land_price) *
      stack.gross_tgs * area * stack.area_factor + stack.mobilisation +
      reefer_rack) : ℚ)
  let maintenance : ℚ :=
    (py_int ((stack.pavement + stack.drainage) * stack.gross_tgs * area *
      stack.area_factor * stack.maintenance_perc) : ℚ)
  let year_online := first_year_lead_online cfg.startyear year stack.delivery_time
  let df := add_cashflow_data_to_element cfg.startyear cfg.lifecycle capex
    maintenance 0 0 year_online stack.delivery_time
  es ++ [Element.laden_stack year_online stack.capacity land_use
    cfg.missing.stack_reefers_present df]

/-- laden_stack_invest: add laden stacks while the required capacity exceeds
the planned plus online capacity. -/
def laden_stack_invest (cfg : Config) :
    ℕ → List Element → ℤ → Except PyErr (List Element)
  | 0, _, _ => .error .fuelExhausted
  | fuel + 1, es, year => do
    let cap ← laden_reefer_stack_capacity cfg es year
    if cap.2.2.1 > cap.1 + cap.2.1 then
      laden_stack_invest cfg fuel (add_laden_stack cfg es year cap.2.2.2.2.2) year
    else
      pure es

/-- Empty stack appended by empty_stack_invest. -/
def add_empty_stack (cfg : Config) (es : List Element) (year : ℤ) :
    List Element :=
  let stack := empty_stack_data
  let stack_ground_slots := stack.capacity / stack.height
  let land_use := stack_ground_slots * stack.gross_tgs * stack.area_factor
  let area := stack.length * stack.width
  let capex : ℚ :=
    (py_int ((stack.pavement + stack.drainage + cfg.land_price) *
      stack.gross_tgs * area * stack.area_factor + stack.mobilisation) : ℚ)
  let maintenance : ℚ :=
    (py_int ((stack.pavement + stack.drainage) * stack.gross_tgs * area *
      stack.area_factor * stack.maintenance_perc) : ℚ)
  let year_online := first_year_lead_online cfg.startyear year stack.delivery_time
  let df := add_cashflow_data_to_element cfg.startyear cfg.lifecycle capex
    maintenance 0 0 year_online stack.delivery_time
  es ++ [Element.empty_stack year_online stack.capacity land_use df]

/-- empty_stack_invest: add empty stacks while the required capacity exceeds
the planned plus online capacity. -/
def empty_stack_invest (cfg : Config) :
    ℕ → List Element → ℤ → Except PyErr (List Element)
  | 0, _, _ => .error .fuelExhausted
  | fuel + 1, es, year => do
    let cap ← empty_stack_capacity cfg es year
    if cap.2.2.1 > cap.1 + cap.2.1 then
      empty_stack_invest cfg fuel (add_empty_stack cfg es year) year
    else
      pure es

/-- OOG stack appended by oog_stack_invest.  Because of the indentation of
the source (the dataframe call sits inside the else branch of the first-year
check), an OOG stack decided in the very first simulated year gets no
cash-flow dataframe at all. -/
def add_oog_stack (cfg : Config) (es : List Element) (year : ℤ) : List Element :=
  let stack := oog_stack_data
  let area := stack.length * stack.width
  let capex : ℚ :=
    (py_int ((stack.pavement + stack.drainage + cfg.land_price) *
      stack.gross_tgs * area * stack.area_factor + stack.mobilisation) : ℚ)
  let maintenance : ℚ :=
    (py_int ((stack.pavement + stack.drainage) * stack.gross_tgs * area *
      stack.area_factor * stack.maintenance_perc) : ℚ)
  let stack_ground_slots := stack.capacity / stack.height
  let land_use := stack_ground_slots * stack.gross_tgs
  if year = cfg.startyear then
    let year_online := year + stack.delivery_time + 1
    es ++ [Element.oog_stack year_online stack.capacity land_use none]
  else
    let year_online := year + stack.delivery_time
    let df := add_cashflow_data_to_element cfg.startyear cfg.lifecycle capex
      maintenance 0 0 year_online stack.delivery_time
    es ++ [Element.oog_stack year_online stack.capacity land_use (some df)]

/-- oog_stack_invest: add OOG stacks while the required capacity exceeds the
planned plus online capacity. -/
def oog_stack_invest (cfg : Config) :
    ℕ → List Element → ℤ → Except PyErr (List Element)
  | 0, _, _ => .error .fuelExhausted
  | fuel + 1, es, year => do
    let cap ← oog_stack_capacity cfg es year
    if cap.2.2 > cap.1 + cap.2.1 then
      oog_stack_invest cfg fuel (add_oog_stack cfg es year) year
    else
      pure es

/-- Stack equipment unit appended by stack_equipment_invest. -/
def add_stack_equipment (cfg : Config) (es : List Element) (year : ℤ) :
    List Element :=
  let eq := stack_equipment_data cfg.stack_equipment
  let capex : ℚ := (py_int (eq.unit_rate + eq.mobilisation) : ℚ)
  let insurance := eq.unit_rate * eq.insurance_perc
  let maintenance := eq.unit_rate * eq.maintenance_perc
  let shift := eq.crew * labour_daily_shifts
  let labour := shift * cfg.missing.blue_collar_salary
  let year_online := first_year_lead_online cfg.startyear year eq.delivery_time
  let df := add_cashflow_data_to_element cfg.startyear cfg.lifecycle capex
    maintenance insurance labour year_online eq.delivery_time
  es ++ [Element.stack_equipment year_online eq.fuel_consumption
    eq.power_consumption df]

/-- Crane-ratio while loop of stack_equipment_invest (rtg, sc and rs
variants): the equipment count is re-read as the total count after every
addition. -/
def stack_equipment_crane_loop (cfg : Config) (year : ℤ) (sts_cranes : ℕ) :
    ℕ → ℕ → List Element → List Element
  | 0, _, es => es
  | fuel + 1, equipment_online, es =>
    if sts_cranes > equipment_online / (stack_equipment_data cfg.stack_equipment).required then
      let es2 := add_stack_equipment cfg es year
      stack_equipment_crane_loop cfg year sts_cranes fuel
        (stack_equipment_list es2).length es2
    else es

/-- Stack-ratio while loop of stack_equipment_invest (rmg variant): one
equipment unit is assumed to serve two stacks. -/
def stack_equipment_stack_loop (cfg : Config) (year : ℤ) (stack_online : ℕ) :
    ℕ → ℕ → List Element → List Element
  | 0, _, es => es
  | fuel + 1, equipment_online, es =>
    if (stack_online : ℚ) > (equipment_online : ℚ) * 0.5 then
      let es2 := add_stack_equipment cfg es year
      stack_equipment_stack_loop cfg year stack_online fuel
        (stack_equipment_list es2).length es2
    else es

/-- stack_equipment_invest: online cranes, equipment and laden stacks are
counted, then the rtg/sc/rs variants trigger on the crane ratio and the rmg
variant on the stack ratio. -/
def stack_equipment_invest (cfg : Config) (fuel : ℕ) (es : List Element)
    (year : ℤ) : List Element :=
  let sts_cranes := ((crane_list es).filter (fun c => year ≥ c.1)).length
  let equipment_online :=
    ((stack_equipment_list es).filter (fun yo => year ≥ yo)).length
  let stack_online :=
    ((laden_stack_list es).filter (fun s => year ≥ s.1)).length
  let es1 :=
    if cfg.stack_equipment = .rtg ∨ cfg.stack_equipment = .sc ∨
        cfg.stack_equipment = .rs then
      stack_equipment_crane_loop cfg year sts_cranes fuel equipment_online es
    else es
  if cfg.stack_equipment = .rmg then
    stack_equipment_stack_loop cfg year stack_online fuel equipment_online es1
  else es1

/-- Gate appended by gate_invest. -/
def add_gate (cfg : Config) (es : List Element) (year : ℤ) : List Element :=
  let land_use := gate_area
  let capex : ℚ :=
    (py_int (gate_unit_rate + gate_mobilisation + gate_canopy_costs * gate_area +
      cfg.land_price * gate_area) : ℚ)
  let maintenance := gate_unit_rate * gate_maintenance_perc
  let shift := gate_crew * labour_daily_shifts
  let labour := shift * cfg.missing.blue_collar_salary
  let year_online := first_year_lead_online cfg.startyear year gate_delivery_time
  let df := add_cashflow_data_to_element cfg.startyear cfg.lifecycle capex
    maintenance 0 labour year_online gate_delivery_time
  es ++ [Element.gate year_online gate_capacity land_use df]

/-- gate_invest: add gates while the planned service rate exceeds 1 (with no
gates that rate is the infinite sentinel, so the loop fires). -/
def gate_invest (cfg : Config) :
    ℕ → List Element → ℤ → Except PyErr (List Element)
  | 0, _, _ => .error .fuelExhausted
  | fuel + 1, es, year => do
    let gm ← calculate_gate_minutes cfg es year
    if pGtQ gm.2.2.1 1 then
      gate_invest cfg fuel (add_gate cfg es year) year
    else
      pure es

/-- general_services_invest: the throughput characteristics are computed
first (and can raise on a missing year); exactly in the year after the start
year one general-services block is appended, sized from the online land use
of the other subsystems plus the support areas, its year_online being the
decision year plus the delivery time. -/
def general_services_invest (cfg : Config) (es : List Element) (year : ℤ) :
    Except PyErr (List Element) := do
  let _ ← throughput_characteristics cfg.laden_perc cfg.reefer_perc
    cfg.empty_perc cfg.oog_perc es year
  let m := cfg.missing
  let quay_land_use : ℚ :=
    (((quay_list es).filter (fun q => year ≥ q.1)).map (fun q => q.2)).sum
  let stack_land_use : ℚ :=
    (((laden_stack_list es).filter (fun s => year ≥ s.1)).map
      (fun s => s.2.2)).sum
  let empty_land_use : ℚ :=
    (((empty_stack_list es).filter (fun s => year ≥ s.1)).map
      (fun s => s.2.2)).sum
  let oog_land_use : ℚ :=
    (((oog_stack_list es).filter (fun s => year ≥ s.1)).map
      (fun s => s.2.2)).sum
  let gate_land_use : ℚ :=
    (((gate_list es).filter (fun g => year ≥ g.1)).map (fun g => g.2.2)).sum
  let total_land_use :=
    (quay_land_use + stack_land_use + empty_land_use + oog_land_use +
      gate_land_use + m.gs_office + m.gs_workshop + m.gs_inspection +
      m.gs_repair) * 0.0001
  if year = cfg.startyear + 1 then
    let land_use := m.gs_office + m.gs_workshop + m.gs_inspection + m.gs_repair
    let area := land_use
    let office := m.gs_office * m.gs_office_cost
    let workshop := m.gs_workshop * m.gs_workshop_cost
    let inspection := m.gs_inspection * m.gs_inspection_cost
    let light := m.gs_lighting_mast_cost * (total_land_use / m.gs_lighting_mast_required)
    let repair := m.gs_repair * m.gs_repair_cost
    let basic :=
      m.gs_fuel_station_cost + m.gs_firefight_cost + m.gs_maintenance_tools_cost +
        m.gs_software_cost + m.gs_electrical_station_cost
    let capex :=
      office + workshop + inspection + light + repair + basic +
        area * cfg.land_price
    let maintenance := capex * m.gs_general_maintenance
    let year_online := year + m.gs_delivery_time
    let df := add_cashflow_data_to_element cfg.startyear cfg.lifecycle capex
      maintenance 0 0 year_online m.gs_delivery_time
    pure (es ++ [Element.general_services year_online land_use df])
  else
    pure es

-- *** Per-year cost attribution passes ***

/-- Write a value into the energy column of the dataframe row of the given
year (a no-op when the year is outside the dataframe, as in pandas). -/
def df_set_energy (df : CashDF) (year : ℤ) (v : ℚ) : CashDF :=
  df.map (fun r => if r.year = year then { r with energy := v } else r)

/-- Write a value into the fuel column of the dataframe row of the given
year. -/
def df_set_fuel (df : CashDF) (year : ℤ) (v : ℚ) : CashDF :=
  df.map (fun r => if r.year = year then { r with fuel := v } else r)

/-- Write a value into the labour column of the dataframe row of the given
year. -/
def df_set_labour (df : CashDF) (year : ℤ) (v : ℚ) : CashDF :=
  df.map (fun r => if r.year = year then { r with labour := v } else r)

/-- calculate_energy_cost: write the yearly energy cost into the dataframes
of cranes (driver: STS moves split over online cranes), rmg stack equipment
(driver: stack moves split over online units), laden stacks (driver: reefer
slots split over online stacks) and general services (lighting of the online
land use plus office consumption); offline elements get zero for the year.
The non-finiteness guards of the source always pass here because every
driver is finite. -/
def calculate_energy_cost (cfg : Config) (es : List Element) (year : ℤ) :
    Except PyErr (List Element) := do
  let bm ← box_moves cfg es year
  let sts_moves := bm.1
  let stack_moves := bm.2.1
  let cap ← laden_reefer_stack_capacity cfg es year
  let reefer_slots := cap.2.2.2.2.2
  let cranes := ((crane_list es).filter (fun c => year ≥ c.1)).length
  let equipment := ((stack_equipment_list es).filter (fun yo => year ≥ yo)).length
  let stacks_online := ((laden_stack_list es).filter (fun s => year ≥ s.1)).length
  let quay_land_use : ℚ :=
    (((quay_list es).filter (fun q => year ≥ q.1)).map (fun q => q.2)).sum
  let stack_land_use : ℚ :=
    (((laden_stack_list es).filter (fun s => year ≥ s.1)).map (fun s => s.2.2)).sum
  let empty_land_use : ℚ :=
    (((empty_stack_list es).filter (fun s => year ≥ s.1)).map (fun s => s.2.2)).sum
  let oog_land_use : ℚ :=
    (((oog_stack_list es).filter (fun s => year ≥ s.1)).map (fun s => s.2.2)).sum
  let gate_land_use : ℚ :=
    (((gate_list es).filter (fun g => year ≥ g.1)).map (fun g => g.2.2)).sum
  let general_land_use : ℚ :=
    (((general_services_list es).filter (fun g => year ≥ g.1)).map
      (fun g => g.2)).sum
  let total_land_use := quay_land_use + stack_land_use + empty_land_use +
    oog_land_use + gate_land_use + general_land_use
  let lighting := total_land_use * cfg.energy_price *
    cfg.missing.gs_lighting_consumption
  let general_consumption := cfg.missing.gs_general_consumption *
    cfg.energy_price * cfg.operational_hours
  pure (es.map (fun e => match e with
    | .cyclic_unloader yo eff con df =>
        if year ≥ yo then
          .cyclic_unloader yo eff con
            (df_set_energy df year (con * (sts_moves / (cranes : ℚ)) * cfg.energy_price))
        else
          .cyclic_unloader yo eff con (df_set_energy df year 0)
    | .stack_equipment yo fc pc df =>
        if cfg.stack_equipment = .rmg then
          if year ≥ yo then
            .stack_equipment yo fc pc
              (df_set_energy df year
                (pc * cfg.energy_price * (stack_moves / (equipment : ℚ))))
          else
            .stack_equipment yo fc pc (df_set_energy df year 0)
        else
          .stack_equipment yo fc pc df
    | .laden_stack yo capa lu rp df =>
        if year ≥ yo then
          .laden_stack yo capa lu rp
            (df_set_energy df year
              ((reefer_slots / (stacks_online : ℚ)) * rp * cfg.energy_price * 24 * 365))
        else
          .laden_stack yo capa lu rp (df_set_energy df year 0)
    | .general_services yo lu df =>
        if year ≥ yo then
          .general_services yo lu
            (df_set_energy df year (lighting + general_consumption))
        else
          .general_services yo lu (df_set_energy df year 0)
    | e => e))

/-- calculate_general_labour_cost: when at least one crane is online, a crew
requirement is derived from the yearly throughput and priced into fixed and
shift labour, written into the dataframes of online general-services blocks;
with no online crane nothing is written. -/
def calculate_general_labour_cost (cfg : Config) (es : List Element)
    (year : ℤ) : Except PyErr (List Element) := do
  let tc ← throughput_characteristics cfg.laden_perc cfg.reefer_perc
    cfg.empty_perc cfg.oog_perc es year
  let throughput := tc.1 + tc.2.1 + tc.2.2.2 + tc.2.2.1
  let m := cfg.missing
  let sts_cranes := ((crane_list es).filter (fun c => year ≥ c.1)).length
  if sts_cranes ≠ 0 then
    let crew_required : ℚ := ((throughput / m.gs_crew_required).ceil : ℚ)
    let total_fte_fixed := crew_required *
      (m.gs_ceo + m.gs_secretary + m.gs_administration + m.gs_hr + m.gs_commercial)
    let fixed_labour := total_fte_fixed * m.white_collar_salary
    let white_collar := crew_required * labour_daily_shifts * m.gs_operations *
      m.white_collar_salary
    let blue_collar := crew_required * labour_daily_shifts *
      (m.gs_engineering + m.gs_security) * m.blue_collar_salary
    let shift_labour := white_collar + blue_collar
    pure (es.map (fun e => match e with
      | .general_services yo lu df =>
          if year ≥ yo then
            .general_services yo lu
              (df_set_labour df year (fixed_labour + shift_labour))
          else
            .general_services yo lu (df_set_labour df year 0)
      | e => e))
  else
    pure es

/-- calculate_fuel_cost: write the yearly fuel cost into the dataframes of
empty handlers (driver: empty moves split over online handlers), rtg, rs and
sc stack equipment (driver: stack moves split over online units) and
tractors (driver: tractor moves split over online tractors); offline
elements get zero for the year. -/
def calculate_fuel_cost (cfg : Config) (es : List Element) (year : ℤ) :
    Except PyErr (List Element) := do
  let bm ← box_moves cfg es year
  let stack_moves := bm.2.1
  let empty_moves := bm.2.2.1
  let tractor_moves := bm.2.2.2
  let eh_online := ((empty_handler_list es).filter (fun yo => year ≥ yo)).length
  let equipment := ((stack_equipment_list es).filter (fun yo => year ≥ yo)).length
  let transport := ((tractor_list es).filter (fun yo => year ≥ yo)).length
  pure (es.map (fun e => match e with
    | .empty_handler yo fc df =>
        if year ≥ yo then
          .empty_handler yo fc
            (df_set_fuel df year (fc * cfg.fuel_price * (empty_moves / (eh_online : ℚ))))
        else
          .empty_handler yo fc (df_set_fuel df year 0)
    | .stack_equipment yo fc pc df =>
        if cfg.stack_equipment = .rtg ∨ cfg.stack_equipment = .rs ∨
            cfg.stack_equipment = .sc then
          if year ≥ yo then
            .stack_equipment yo fc pc
              (df_set_fuel df year
                (fc * cfg.fuel_price * (stack_moves / (equipment : ℚ))))
          else
            .stack_equipment yo fc pc (df_set_fuel df year 0)
        else
          .stack_equipment yo fc pc df
    | .horizontal_transport yo fc df =>
        if year ≥ yo then
          .horizontal_transport yo fc
            (df_set_fuel df year (fc * (tractor_moves / (transport : ℚ)) * cfg.fuel_price))
        else
          .horizontal_transport yo fc (df_set_fuel df year 0)
    | e => e))

/-- calculate_demurrage_cost: the aggregate per-quay service rate of the
online cranes (raising ZeroDivisionError when online cranes exist without a
quay wall) sets the per-class service time; the waiting factor scales it
into a waiting time whose excess over the class turnaround allowance, priced
per call, sums into the yearly demurrage; a zero service rate gives zero. -/
def calculate_demurrage_cost (cfg : Config) (es : List Element) (year : ℤ) :
    Except PyErr PFloat := do
  let vc ← calculate_vessel_calls es year
  let factor ← waiting_time cfg es year
  let quay_walls := (quay_list es).length
  let online_cranes := (crane_list es).filter (fun c => year ≥ c.1)
  if online_cranes ≠ [] ∧ quay_walls = 0 then
    .error .zeroDivisionError
  else
    let service_rate : ℚ :=
      (online_cranes.map (fun c => c.2.1 / (quay_walls : ℚ))).sum
    if service_rate ≠ 0 then
      let dem_class := fun (call_size all_turn rate : ℚ) (calls : ℤ) =>
        let service_time := call_size / service_rate
        let waiting : PFloat := pMul factor (some service_time)
        let penalty : PFloat :=
          match waiting with
          | some w => some (max 0 (w - all_turn))
          | none => none
        pMul (pMul penalty (some (calls : ℚ))) (some rate)
      let hm := dem_class handymax_call_size handymax_all_turn_time
        handymax_demurrage_rate vc.2.1
      let hs := dem_class handysize_call_size handysize_all_turn_time
        handysize_demurrage_rate vc.1
      let pm := dem_class panamax_call_size panamax_all_turn_time
        panamax_demurrage_rate vc.2.2.1
      pure (pAdd (pAdd hm hs) pm)
    else
      pure (some 0)

/-- calculate_revenue: the demand-side revenue sums volume times fee over the
commodities with data for the year; the capacity side prices the online
service capacity scaled by the online crane occupancy; the appended revenue
is the minimum of the two (Python min returns its first, finite, argument
when the capacity side is non-finite).  A zero total volume raises
ZeroDivisionError in the dead rate computation of the source; with no
commodity the fee variable is unbound and the silenced append is skipped, so
nothing is appended (returned as none). -/
def calculate_revenue (cfg : Config) (es : List Element) (year : ℤ) :
    Except PyErr (Option ℚ) := do
  let quay_walls := (quay_list es).length
  let crane_cyclic := (crane_list es).length
  let horizontal_count := (tractor_list es).length
  let safety_factor : ℚ :=
    if quay_walls < 1 ∧ crane_cyclic > 1 ∧ horizontal_count < 1 then 0 else 1
  let revenues : ℚ := (commodity_list es).foldl
    (fun acc c =>
      match scenario_lookup c.2.2.2.2 year with
      | some volume => acc + volume * c.1 * safety_factor
      | none => acc) 0
  let vc ← calculate_vessel_calls es year
  let occ := calculate_berth_occupancy cfg.operational_hours es year vc.1
    vc.2.1 vc.2.2.1
  let online_cranes := (crane_list es).filter (fun c => year ≥ c.1)
  let service_rate : PFloat := online_cranes.foldl
    (fun acc c => pAdd acc (pMul (some c.2.1) occ.2.2.2)) (some 0)
  if vc.2.2.2.2 = 0 then
    .error .zeroDivisionError
  else
    match (commodity_list es).getLast? with
    | none => pure none
    | some c =>
        let fee := c.1
        let cap_side : PFloat :=
          pMul (pMul (pMul service_rate (some cfg.operational_hours)) (some fee))
            (some safety_factor)
        let demand_side := revenues * safety_factor
        let value : ℚ :=
          match cap_side with
          | some q => if q < demand_side then q else demand_side
          | none => demand_side
        pure (some value)

-- *** Ledger assembly and NPV (System.add_cashflow_elements, System.NPV) ***

/-- Cash-flow dataframe of an element, when the element carries one (berths,
commodities and vessels never do; an OOG stack decided in the first year
does not). -/
def element_df : Element → Option CashDF
  | .berth .. => none
  | .quay_wall _ _ df => some df
  | .cyclic_unloader _ _ _ df => some df
  | .horizontal_transport _ _ df => some df
  | .empty_handler _ _ df => some df
  | .laden_stack _ _ _ _ df => some df
  | .empty_stack _ _ _ df => some df
  | .oog_stack _ _ _ df => df
  | .stack_equipment _ _ _ df => some df
  | .gate _ _ _ df => some df
  | .general_services _ _ df => some df
  | .commodity .. => none
  | .vessel .. => none

/-- Value of one dataframe column at one year. -/
def df_col_at (df : CashDF) (y : ℤ) (col : CashRow → ℚ) : ℚ :=
  ((df.filter (fun r => r.year = y)).map col).sum

/-- Sum of one column over every element dataframe at one year. -/
def ledger_col (es : List Element) (y : ℤ) (col : CashRow → ℚ) : ℚ :=
  (es.map (fun e =>
    match element_df e with
    | some df => df_col_at df y col
    | none => 0)).sum

/-- One row of the aggregate cash-flow ledger. -/
structure LedgerRow where
  year : ℤ
  capex : ℚ
  maintenance : ℚ
  insurance : ℚ
  energy : ℚ
  labour : ℚ
  fuel : ℚ
  demurrage : PFloat
  revenues : ℚ
deriving DecidableEq, Repr

/-- add_cashflow_elements: initialise the per-column ledger over the
lifecycle years by summing every element dataframe column-wise, and attach
the demurrage and revenues series as their own columns (pandas raises
ValueError when a series length does not match the frame length). -/
def add_cashflow_elements (cfg : Config) (es : List Element)
    (demurrage : List PFloat) (revenues : List ℚ) :
    Except PyErr (List LedgerRow) :=
  if demurrage.length = cfg.lifecycle ∧ revenues.length = cfg.lifecycle then
    .ok ((List.range cfg.lifecycle).map (fun (i : ℕ) =>
      let y := cfg.startyear + (i : ℤ)
      { year := y
        capex := ledger_col es y (fun r => r.capex)
        maintenance := ledger_col es y (fun r => r.maintenance)
        insurance := ledger_col es y (fun r => r.insurance)
        energy := ledger_col es y (fun r => r.energy)
        labour := ledger_col es y (fun r => r.labour)
        fuel := ledger_col es y (fun r => r.fuel)
        demurrage := demurrage.getD i none
        revenues := revenues.getD i 0 }))
  else
    .error .valueError

/-- Real-WACC discounting of the ledger: every column of the row of year y is
divided by (1 + WACC_real) to the power y minus startyear. -/
def discount_ledger (startyear : ℤ) (rows : List LedgerRow) : List LedgerRow :=
  rows.map (fun r =>
    let k := (1 + WACC_real_default) ^ (r.year - startyear).toNat
    { year := r.year
      capex := r.capex / k
      maintenance := r.maintenance / k
      insurance := r.insurance / k
      energy := r.energy / k
      labour := r.labour / k
      fuel := r.fuel / k
      demurrage := pDiv r.demurrage k
      revenues := r.revenues / k })

/-- NPV as System.NPV computes it: capex and the six operating-cost columns
are taken from the discounted ledger, but the revenue term is the raw
revenues list of the instance, not the discounted revenues column; the yearly
present values are summed. -/
def NPV (cfg : Config) (es : List Element) (demurrage : List PFloat)
    (revenues : List ℚ) : Except PyErr PFloat := do
  let rows ← add_cashflow_elements cfg es demurrage revenues
  let d := discount_ledger cfg.startyear rows
  pure (pSum ((d.zip revenues).map (fun p =>
    let opex := pAdd (pAdd (pAdd (pAdd (pAdd (some p.1.insurance)
      (some p.1.maintenance)) (some p.1.energy)) p.1.demurrage)
      (some p.1.fuel)) (some p.1.labour)
    pAdd (pAdd (pNeg (some p.1.capex)) (pNeg opex)) (some p.2))))

/-- NPV written exactly as claim C1 words it: for every year the combination
revenue minus capex, insurance, maintenance, energy, fuel, labour and
demurrage is discounted as a whole (revenue included) at the real WACC by
the offset from the start year, and the discounted values are summed.  This
definition follows the spec, not the source, and is compared against NPV. -/
def NPV_spec_formula (cfg : Config) (es : List Element)
    (demurrage : List PFloat) (revenues : List ℚ) : Except PyErr PFloat := do
  let rows ← add_cashflow_elements cfg es demurrage revenues
  pure (pSum (rows.map (fun r =>
    let k := (1 + WACC_real_default) ^ (r.year - cfg.startyear).toNat
    pDiv (pAdd (some (r.revenues - r.capex - r.insurance - r.maintenance -
      r.energy - r.fuel - r.labour)) (pNeg r.demurrage)) k)))

/-- NPV as the amended claim words it: every cost term (capex, insurance,
maintenance, energy, fuel, labour, demurrage) of a year is discounted at the
real WACC by the offset from the start year, while the revenue of the year
enters at face value; the yearly values are summed. -/
def NPV_amended_formula (cfg : Config) (es : List Element)
    (demurrage : List PFloat) (revenues : List ℚ) : Except PyErr PFloat := do
  let rows ← add_cashflow_elements cfg es demurrage revenues
  pure (pSum (rows.map (fun r =>
    let k := (1 + WACC_real_default) ^ (r.year - cfg.startyear).toNat
    pAdd (some (r.revenues - r.capex / k - r.insurance / k - r.maintenance / k -
      r.energy / k - r.fuel / k - r.labour / k)) (pNeg (pDiv r.demurrage k)))))

-- *** The simulation engine (System.simulate) ***

/-- Outputs of one simulation run: the final registry, the demurrage and
revenue series and the scalar NPV. -/
structure SimResult where
  elements : List Element
  demurrage : List PFloat
  revenues : List ℚ
  npv : PFloat
deriving DecidableEq, Repr

/-- One simulated year of investment decisions, in the fixed source order:
traffic estimation, then berth/quay/crane, horizontal transport, laden,
empty and OOG stacks, stack equipment, gate, empty handler and general
services. -/
def simulate_year (cfg : Config) (fuel : ℕ) (es : List Element) (year : ℤ) :
    Except PyErr (List Element) := do
  let vc ← calculate_vessel_calls es year
  let es ← berth_invest cfg fuel es year vc.1 vc.2.1 vc.2.2.1
  let es := horizontal_transport_invest cfg fuel es year
  let es ← laden_stack_invest cfg fuel es year
  let es ← empty_stack_invest cfg fuel es year
  let es ← oog_stack_invest cfg fuel es year
  let es := stack_equipment_invest cfg fuel es year
  let es ← gate_invest cfg fuel es year
  let es := empty_handler_invest cfg fuel es year
  general_services_invest cfg es year

/-- simulate: walk the lifecycle years through the investment routines, then
attribute energy, general labour and fuel costs year by year, then collect
the demurrage and revenue series, assemble the cash-flow ledger and reduce
it to the NPV.  The fuel argument bounds every source while loop. -/
def simulate (cfg : Config) (fuel : ℕ) : Except PyErr SimResult := do
  let years := sim_years cfg.startyear cfg.lifecycle
  let es ← years.foldlM (fun es y => simulate_year cfg fuel es y) cfg.elements
  let es ← years.foldlM (fun es y => calculate_energy_cost cfg es y) es
  let es ← years.foldlM (fun es y => calculate_general_labour_cost cfg es y) es
  let es ← years.foldlM (fun es y => calculate_fuel_cost cfg es y) es
  let demurrage ← years.foldlM (fun d y => do
    let v ← calculate_demurrage_cost cfg es y
    pure (d ++ [v])) ([] : List PFloat)
  let revenues ← years.foldlM (fun r y => do
    let v ← calculate_revenue cfg es y
    pure (match v with
      | some q => r ++ [q]
      | none => r)) ([] : List ℚ)
  let _ ← add_cashflow_elements cfg es demurrage revenues
  let npv ← NPV cfg es demurrage revenues
  pure ⟨es, demurrage, revenues, npv⟩

/-- Profile of a registry as claim C2 compares it: the element count and the
per-element kind and year_online. -/
def registry_profile (es : List Element) : ℕ × List (Element.Kind × ℤ) :=
  (es.length, es.map (fun e => (e.kind, e.year_online)))

-- *** Example configuration used by concrete witnesses ***

/-- Concrete values for the spec-modelled injected records (plausible
figures; no modelled claim depends on them beyond being definite). -/
def example_missing : Missing :=
  { blue_collar_salary := 30000
    white_collar_salary := 60000
    quay_apron_pavement := 125
    eh_unit_rate := 500000
    eh_mobilisation := 5000
    eh_maintenance_perc := 1 / 10
    eh_crew := 2
    eh_fuel_consumption := 3 / 2
    eh_required := 5
    eh_delivery_time := 1
    gs_office := 2400
    gs_workshop := 2700
    gs_inspection := 2700
    gs_repair := 100
    gs_office_cost := 1000
    gs_workshop_cost := 1000
    gs_inspection_cost := 1000
    gs_repair_cost := 1000
    gs_lighting_mast_cost := 30000
    gs_lighting_mast_required := 1
    gs_fuel_station_cost := 500000
    gs_firefight_cost := 2000000
    gs_maintenance_tools_cost := 10000
    gs_software_cost := 10000
    gs_electrical_station_cost := 2000000
    gs_general_maintenance := 15 / 1000
    gs_delivery_time := 1
    gs_crew_required := 500000
    gs_ceo := 1
    gs_secretary := 1
    gs_administration := 2
    gs_hr := 1
    gs_commercial := 1
    gs_operations := 4
    gs_engineering := 2
    gs_security := 2
    gs_lighting_consumption := 1
    gs_general_consumption := 1000
    stack_household := 21 / 20
    stack_digout_margin := 6 / 5
    stack_reefer_factor := 233 / 100
    stack_reefers_present := 1 / 2
    stack_reefer_rack := 3500
    empty_stack_household := 21 / 20
    empty_stack_digout := 6 / 5
    tractor_non_essential_moves := 6 / 5
    pow_Gijt := fun q => q * 5 }

/-- STS crane configuration record (sts_crane_data with the modelled
effective capacity 63, the weighted TEU per lift times the hourly cycles). -/
def example_crane_defaults : CraneDefaults :=
  ⟨1, 10000000, 15 / 100, 2 / 100, 1 / 100, 400, 11 / 2, 63⟩

/-- Constant demand scenario over four years. -/
def example_scenario : List (ℤ × ℚ) :=
  [(2020, 500000), (2021, 500000), (2022, 500000), (2023, 500000)]

/-- Initial registry of a run: one commodity carried entirely by panamax
vessels, and the three vessel classes. -/
def example_elements : List Element :=
  [Element.commodity 500 0 0 100 example_scenario,
   Element.vessel .handysize 35000,
   Element.vessel .handymax 55000,
   Element.vessel .panamax 3000]

/-- A complete concrete System construction input. -/
def example_config : Config :=
  { startyear := 2020
    lifecycle := 4
    operational_hours := 7500
    stack_equipment := .rtg
    laden_stack := .rtg
    elements := example_elements
    crane_type_defaults := example_crane_defaults
    allowable_berth_occupancy := 6 / 10
    allowable_dwelltime := 18 / 365
    laden_perc := 9 / 10
    reefer_perc := 5 / 100
    empty_perc := 25 / 1000
    oog_perc := 25 / 1000
    transhipment_share := 3 / 10
    energy_price := 15 / 100
    fuel_price := 1
    land_price := 0
    missing := example_missing }

-- *** Helper lemmas about the element dataframe ***

/-- Column lookup in a dataframe built by mapping a row constructor over a
year list: it reduces to the rows of the matching years. -/
theorem df_col_at_of_map (years : List ℤ) (mk : ℤ → CashRow)
    (hmk : ∀ y, (mk y).year = y) (t : ℤ) (col : CashRow → ℚ) :
    df_col_at (years.map mk) t col =
      ((years.filter (fun y => y = t)).map (fun y => col (mk y))).sum := by
  induction years with
  | nil => rfl
  | cons a l ih =>
      by_cases h : a = t
      · subst h
        simp only [df_col_at, List.map_cons, List.filter_cons] at *
        simp [hmk, ih]
      · simp only [df_col_at, List.map_cons, List.filter_cons] at *
        simp [hmk, h, ih]

/-- In a duplicate-free list containing t, filtering for t returns exactly
the singleton. -/
theorem filter_eq_singleton_of_nodup (l : List ℤ) (t : ℤ) (hnd : l.Nodup)
    (ht : t ∈ l) : l.filter (fun y => y = t) = [t] := by
  induction l with
  | nil => cases ht
  | cons a l ih =>
      rcases List.nodup_cons.mp hnd with ⟨ha, hl⟩
      rcases List.mem_cons.mp ht with h | h
      · subst h
        have hnil : l.filter (fun y => y = t) = [] := by
          apply List.filter_eq_nil_iff.mpr
          intro x hx
          simp only [decide_eq_true_eq]
          intro hxa
          exact ha (hxa ▸ hx)
        simp [List.filter_cons, hnil]
      · have hat : a ≠ t := by
          intro hc
          exact ha (hc ▸ h)
        simp [List.filter_cons, hat, ih hl h]

/-- The simulated year list has no duplicates. -/
theorem sim_years_nodup (startyear : ℤ) (lifecycle : ℕ) :
    (sim_years startyear lifecycle).Nodup := by
  have hinj : Function.Injective (fun i : ℕ => startyear + (i : ℤ)) := by
    intro i j h
    simp only [add_right_inj, Int.natCast_inj] at h
    exact h
  unfold sim_years
  exact List.Nodup.map hinj (List.nodup_range lifecycle)

/-- Capex cell of the element dataframe at a ledger year: exactly the
capex-timing rule of the compiler. -/
theorem add_cashflow_capex_at (startyear : ℤ) (lifecycle : ℕ)
    (capex maintenance insurance labour : ℚ) (year_online year_delivery : ℤ)
    (t : ℤ) (ht : t ∈ sim_years startyear lifecycle) :
    df_col_at (add_cashflow_data_to_element startyear lifecycle capex
      maintenance insurance labour year_online year_delivery) t
      (fun r => r.capex) =
      (if year_delivery > 1 then
        if t = year_online - 2 then (6 / 10) * capex
        else if t = year_online - 1 then (4 / 10) * capex
        else 0
      else if t = year_online - 1 then capex else 0) := by
  unfold add_cashflow_data_to_element
  rw [df_col_at_of_map _ _ (fun y => rfl) t]
  rw [filter_eq_singleton_of_nodup _ _ (sim_years_nodup startyear lifecycle) ht]
  simp

/-- C8: for every element handed to the cash-flow compiler, when the
delivery lead time exceeds one year 60 percent of the capex is booked in
ledger year year_online minus 2 and 40 percent in year year_online minus 1,
and otherwise the full capex is booked in year year_online minus 1 (and
nothing two years before), stated for booking years inside the ledger
horizon, which are the only rows the dataframe has. -/
theorem C8_theorem (startyear : ℤ) (lifecycle : ℕ)
    (capex maintenance insurance labour : ℚ) (year_online year_delivery : ℤ)
    (h2 : year_online - 2 ∈ sim_years startyear lifecycle)
    (h1 : year_online - 1 ∈ sim_years startyear lifecycle) :
    (year_delivery > 1 →
      df_col_at (add_cashflow_data_to_element startyear lifecycle capex
        maintenance insurance labour year_online year_delivery)
        (year_online - 2) (fun r => r.capex) = (6 / 10) * capex ∧
      df_col_at (add_cashflow_data_to_element startyear lifecycle capex
        maintenance insurance labour year_online year_delivery)
        (year_online - 1) (fun r => r.capex) = (4 / 10) * capex) ∧
    (¬ year_delivery > 1 →
      df_col_at (add_cashflow_data_to_element startyear lifecycle capex
        maintenance insurance labour year_online year_delivery)
        (year_online - 1) (fun r => r.capex) = capex ∧
      df_col_at (add_cashflow_data_to_element startyear lifecycle capex
        maintenance insurance labour year_online year_delivery)
        (year_online - 2) (fun r => r.capex) = 0) := by
  have e2 := add_cashflow_capex_at startyear lifecycle capex maintenance
    insurance labour year_online year_delivery (year_online - 2) h2
  have e1 := add_cashflow_capex_at startyear lifecycle capex maintenance
    insurance labour year_online year_delivery (year_online - 1) h1
  have hne : ¬ year_online - 1 = year_online - 2 := by omega
  have hne2 : ¬ year_online - 2 = year_online - 1 := by omega
  constructor
  · intro hd
    rw [e2, e1]
    simp [hd, hne]
  · intro hd
    rw [e1, e2]
    simp [hd, hne, hne2]

/-- C8 witness: a concrete two-year-lead element (quay-like, delivery 2,
online 2023 in a 2020-2023 ledger) and a concrete one-year-lead element. -/
theorem C8_witness :
    ((2023 : ℤ) - 2 ∈ sim_years 2020 4 ∧ (2023 : ℤ) - 1 ∈ sim_years 2020 4) ∧
    ((2 : ℤ) > 1 →
      df_col_at (add_cashflow_data_to_element 2020 4 1000 7 5 3 2023 2)
        (2023 - 2) (fun r => r.capex) = (6 / 10) * 1000 ∧
      df_col_at (add_cashflow_data_to_element 2020 4 1000 7 5 3 2023 2)
        (2023 - 1) (fun r => r.capex) = (4 / 10) * 1000) ∧
    (¬ (2 : ℤ) > 1 →
      df_col_at (add_cashflow_data_to_element 2020 4 1000 7 5 3 2023 2)
        (2023 - 1) (fun r => r.capex) = 1000 ∧
      df_col_at (add_cashflow_data_to_element 2020 4 1000 7 5 3 2023 2)
        (2023 - 2) (fun r => r.capex) = 0) :=
  ⟨⟨by decide, by decide⟩,
    C8_theorem 2020 4 1000 7 5 3 2023 2 (by decide) (by decide)⟩

-- *** C5: the WACC derivation ***

/-- C5 counterexample: at the default parameters (gearing 60, return on
equity 0.10, return on debt 0.30, tax 0.28) the source WACC_nominal is
0.1584 while the claimed formula with the tax shield on the debt term only
gives 0.1696, so the claim is false at this input. -/
theorem C5_counterexample :
    WACC_nominal 60 (10 / 100) (30 / 100) (28 / 100) = 1584 / 10000 ∧
    WACC_nominal_spec 60 (10 / 100) (30 / 100) (28 / 100) = 1696 / 10000 ∧
    WACC_nominal 60 (10 / 100) (30 / 100) (28 / 100) ≠
      WACC_nominal_spec 60 (10 / 100) (30 / 100) (28 / 100) := by
  refine ⟨by norm_num [WACC_nominal], by norm_num [WACC_nominal_spec], ?_⟩
  norm_num [WACC_nominal, WACC_nominal_spec]

/-- C5 (amended): WACC_nominal applies the corporate-tax factor to the whole
gearing-weighted average of the equity and debt returns (not only to the
debt term), and WACC_real equals (1 + WACC_nominal at its default arguments)
divided by (1 + inflation), minus 1. -/
theorem C5_theorem (Gearing Re Rd Tc inflation : ℚ) :
    WACC_nominal Gearing Re Rd Tc =
      ((100 - Gearing) / 100 * Re + Gearing / 100 * Rd) * (1 - Tc) ∧
    WACC_real inflation = (1 + WACC_nominal_default) / (1 + inflation) - 1 := by
  constructor
  · unfold WACC_nominal
    ring_nf
  · unfold WACC_real
    ring_nf

-- *** C9: the quay sizing rule ***

/-- C9: the governing length is the largest vessel LOA (the panamax), and
the quay length formula switches branch exactly at the quay-count
transitions: zero existing quays give LOA plus 30; exactly one gives
1.1 times berths times (LOA + 15) minus (LOA + 30); two or more give
1.1 times berths times (LOA + 15) minus 1.1 times (berths - 1) times
(LOA + 15). -/
theorem C9_theorem (berths q : ℕ) (hq : 2 ≤ q) :
    max (max handysize_LOA handymax_LOA) panamax_LOA = panamax_LOA ∧
    quay_length_rule 0 berths panamax_LOA = panamax_LOA + 2 * 15 ∧
    quay_length_rule 1 berths panamax_LOA =
      1.1 * (berths : ℚ) * (panamax_LOA + 15) - (panamax_LOA + 2 * 15) ∧
    quay_length_rule q berths panamax_LOA =
      1.1 * (berths : ℚ) * (panamax_LOA + 15) -
        1.1 * ((berths : ℚ) - 1) * (panamax_LOA + 15) := by
  have h0 : ¬ q = 0 := by omega
  have h1 : ¬ q = 1 := by omega
  refine ⟨by norm_num [handysize_LOA, handymax_LOA, panamax_LOA], ?_, ?_, ?_⟩
  · simp [quay_length_rule]
  · simp [quay_length_rule]
  · simp [quay_length_rule, h0, h1]

/-- C9 witness: the branch equations at two existing quays and three
berths. -/
theorem C9_witness :
    2 ≤ 2 ∧
    (max (max handysize_LOA handymax_LOA) panamax_LOA = panamax_LOA ∧
      quay_length_rule 0 3 panamax_LOA = panamax_LOA + 2 * 15 ∧
      quay_length_rule 1 3 panamax_LOA =
        1.1 * (3 : ℚ) * (panamax_LOA + 15) - (panamax_LOA + 2 * 15) ∧
      quay_length_rule 2 3 panamax_LOA =
        1.1 * (3 : ℚ) * (panamax_LOA + 15) -
          1.1 * ((3 : ℚ) - 1) * (panamax_LOA + 15)) :=
  ⟨by decide, C9_theorem 3 2 (by decide)⟩

-- *** C6: infinite sentinels on zero denominators ***

/-- C6: with zero cranes in the registry every berth and crane occupancy
output is the infinite sentinel rather than an exception, and the
berth-investment trigger condition (planned occupancy above the allowable
occupancy) holds, so the loop fires; with zero gates the gate service rate
is the infinite sentinel and the gate trigger condition (service rate above
1) holds. -/
theorem C6_theorem (cfg : Config) (es : List Element) (year : ℤ)
    (hs hm pm : ℤ) (hcr : crane_list es = []) (hg : gate_list es = []) :
    calculate_berth_occupancy cfg.operational_hours es year hs hm pm =
      (none, none, none, none) ∧
    pGtQ (calculate_berth_occupancy cfg.operational_hours es year hs hm pm).1
      cfg.allowable_berth_occupancy = true ∧
    calculate_gate_minutes cfg es year = .ok (0, 0, none, 0) ∧
    pGtQ (none : PFloat) 1 = true := by
  have hocc : calculate_berth_occupancy cfg.operational_hours es year hs hm pm =
      (none, none, none, none) := by
    simp [calculate_berth_occupancy, hcr]
  have hgate : calculate_gate_minutes cfg es year = .ok (0, 0, none, 0) := by
    simp [calculate_gate_minutes, hg]
    rfl
  exact ⟨hocc, by rw [hocc]; rfl, hgate, rfl⟩

/-- C6 witness: the empty registry at the example configuration. -/
theorem C6_witness :
    (crane_list [] = [] ∧ gate_list [] = []) ∧
    (calculate_berth_occupancy example_config.operational_hours [] 2020 0 0 0 =
      (none, none, none, none) ∧
    pGtQ (calculate_berth_occupancy example_config.operational_hours [] 2020 0 0 0).1
      example_config.allowable_berth_occupancy = true ∧
    calculate_gate_minutes example_config [] 2020 = .ok (0, 0, none, 0) ∧
    pGtQ (none : PFloat) 1 = true) :=
  ⟨⟨rfl, rfl⟩, C6_theorem example_config [] 2020 0 0 0 rfl rfl⟩

-- *** C4 and C10: the berth occupancy formulas ***

/-- Registry with two berths and one online crane, on which the source online
berth occupancy disagrees with the claimed formula. -/
def C4_es : List Element :=
  [Element.berth 2020 4, Element.berth 2020 4,
   Element.cyclic_unloader 2020 100 0 []]

/-- C4 counterexample: two berths, one online crane of capacity 100, one
handysize call.  The source returns online berth occupancy 353/7500 (the
full mooring time of 3 hours is added), while the claimed per-class formula
calls times (call size over service rate plus mooring time over berth
count) gives 703/15000; the two differ. -/
theorem C4_counterexample :
    (calculate_berth_occupancy 7500 C4_es 2020 1 0 0).2.1 =
      some (353 / 7500) ∧
    ((1 : ℚ) * (handysize_call_size / service_rate_online C4_es 2020 +
        handysize_mooring_time / ((berth_list C4_es).length : ℚ)) +
      (0 : ℚ) * (handymax_call_size / service_rate_online C4_es 2020 +
        handymax_mooring_time / ((berth_list C4_es).length : ℚ)) +
      (0 : ℚ) * (panamax_call_size / service_rate_online C4_es 2020 +
        panamax_mooring_time / ((berth_list C4_es).length : ℚ))) / 7500 =
      703 / 15000 ∧
    (353 / 7500 : ℚ) ≠ 703 / 15000 := by
  refine ⟨?_, ?_, by norm_num⟩
  · norm_num [calculate_berth_occupancy, C4_es, crane_list, berth_list,
      service_rate_online, service_rate_planned, berth_occupancy_online_ratio,
      handysize_call_size, handysize_mooring_time, handymax_call_size,
      handymax_mooring_time, panamax_call_size, panamax_mooring_time,
      List.filterMap, List.filter]
  · norm_num [C4_es, service_rate_online, crane_list, berth_list,
      handysize_call_size, handysize_mooring_time, handymax_call_size,
      handymax_mooring_time, panamax_call_size, panamax_mooring_time,
      List.filterMap, List.filter]

/-- C4 (amended): with cranes present and a nonzero online service rate, the
planned berth occupancy is the claimed formula (calls times call size over
planned rate plus mooring over berth count, summed over the classes and
divided by the operational hours) and the planned crane occupancy is the
same without the mooring term, both uncapped; the online variant adds the
full mooring time for the handysize and handymax classes, divides the
mooring time by the berth count only for the panamax class, and both online
occupancies are capped at 1. -/
theorem C4_theorem (oh : ℚ) (es : List Element) (year : ℤ) (hs hm pm : ℤ)
    (hc : ¬ crane_list es = []) (ho : ¬ service_rate_online es year = 0) :
    calculate_berth_occupancy oh es year hs hm pm =
      (some (((hs : ℚ) * (handysize_call_size / service_rate_planned es +
            handysize_mooring_time / ((berth_list es).length : ℚ)) +
          (hm : ℚ) * (handymax_call_size / service_rate_planned es +
            handymax_mooring_time / ((berth_list es).length : ℚ)) +
          (pm : ℚ) * (panamax_call_size / service_rate_planned es +
            panamax_mooring_time / ((berth_list es).length : ℚ))) / oh),
        some (min (((hs : ℚ) * (handysize_call_size / service_rate_online es year +
            handysize_mooring_time) +
          (hm : ℚ) * (handymax_call_size / service_rate_online es year +
            handymax_mooring_time) +
          (pm : ℚ) * (panamax_call_size / service_rate_online es year +
            panamax_mooring_time / ((berth_list es).length : ℚ))) / oh) 1),
        some (((hs : ℚ) * (handysize_call_size / service_rate_planned es) +
          (hm : ℚ) * (handymax_call_size / service_rate_planned es) +
          (pm : ℚ) * (panamax_call_size / service_rate_planned es)) / oh),
        some (min (((hs : ℚ) * (handysize_call_size / service_rate_online es year) +
          (hm : ℚ) * (handymax_call_size / service_rate_online es year) +
          (pm : ℚ) * (panamax_call_size / service_rate_online es year)) / oh) 1)) := by
  have h1 : berth_occupancy_planned_ratio oh es hs hm pm =
      ((hs : ℚ) * (handysize_call_size / service_rate_planned es +
          handysize_mooring_time / ((berth_list es).length : ℚ)) +
        (hm : ℚ) * (handymax_call_size / service_rate_planned es +
          handymax_mooring_time / ((berth_list es).length : ℚ)) +
        (pm : ℚ) * (panamax_call_size / service_rate_planned es +
          panamax_mooring_time / ((berth_list es).length : ℚ))) / oh := by
    unfold berth_occupancy_planned_ratio
    ring
  have h2 : berth_occupancy_online_ratio oh es year hs hm pm =
      ((hs : ℚ) * (handysize_call_size / service_rate_online es year +
          handysize_mooring_time) +
        (hm : ℚ) * (handymax_call_size / service_rate_online es year +
          handymax_mooring_time) +
        (pm : ℚ) * (panamax_call_size / service_rate_online es year +
          panamax_mooring_time / ((berth_list es).length : ℚ))) / oh := by
    unfold berth_occupancy_online_ratio
    ring
  have h3 : crane_occupancy_planned_ratio oh es hs hm pm =
      ((hs : ℚ) * (handysize_call_size / service_rate_planned es) +
        (hm : ℚ) * (handymax_call_size / service_rate_planned es) +
        (pm : ℚ) * (panamax_call_size / service_rate_planned es)) / oh := by
    unfold crane_occupancy_planned_ratio
    ring
  have h4 : crane_occupancy_online_ratio oh es year hs hm pm =
      ((hs : ℚ) * (handysize_call_size / service_rate_online es year) +
        (hm : ℚ) * (handymax_call_size / service_rate_online es year) +
        (pm : ℚ) * (panamax_call_size / service_rate_online es year)) / oh := by
    unfold crane_occupancy_online_ratio
    ring
  unfold calculate_berth_occupancy
  rw [if_neg hc, if_pos ho, h1, h2, h3, h4]

/-- C4 witness: the theorem applied to the counterexample registry in its
online year. -/
theorem C4_witness :
    (¬ crane_list C4_es = [] ∧ ¬ service_rate_online C4_es 2020 = 0) ∧
    calculate_berth_occupancy 7500 C4_es 2020 1 2 3 =
      (some (((1 : ℚ) * (handysize_call_size / service_rate_planned C4_es +
            handysize_mooring_time / ((berth_list C4_es).length : ℚ)) +
          (2 : ℚ) * (handymax_call_size / service_rate_planned C4_es +
            handymax_mooring_time / ((berth_list C4_es).length : ℚ)) +
          (3 : ℚ) * (panamax_call_size / service_rate_planned C4_es +
            panamax_mooring_time / ((berth_list C4_es).length : ℚ))) / 7500),
        some (min (((1 : ℚ) * (handysize_call_size / service_rate_online C4_es 2020 +
            handysize_mooring_time) +
          (2 : ℚ) * (handymax_call_size / service_rate_online C4_es 2020 +
            handymax_mooring_time) +
          (3 : ℚ) * (panamax_call_size / service_rate_online C4_es 2020 +
            panamax_mooring_time / ((berth_list C4_es).length : ℚ))) / 7500) 1),
        some (((1 : ℚ) * (handysize_call_size / service_rate_planned C4_es) +
          (2 : ℚ) * (handymax_call_size / service_rate_planned C4_es) +
          (3 : ℚ) * (panamax_call_size / service_rate_planned C4_es)) / 7500),
        some (min (((1 : ℚ) * (handysize_call_size / service_rate_online C4_es 2020) +
          (2 : ℚ) * (handymax_call_size / service_rate_online C4_es 2020) +
          (3 : ℚ) * (panamax_call_size / service_rate_online C4_es 2020)) / 7500) 1)) :=
  ⟨⟨by decide, by norm_num [C4_es, service_rate_online, crane_list,
      List.filterMap, List.filter]⟩,
    C4_theorem 7500 C4_es 2020 1 2 3 (by decide)
      (by norm_num [C4_es, service_rate_online, crane_list, List.filterMap,
        List.filter])⟩

/-- Registry with one berth and one not-yet-online crane, whose planned
berth occupancy exceeds 1 at a thousand panamax calls. -/
def C10_es : List Element :=
  [Element.berth 2020 4, Element.cyclic_unloader 2021 63 0 []]

/-- C10: with cranes present and a positive online service rate, the online
berth and crane occupancies are the raw time ratios capped at 1 (minimum of
ratio and 1), the planned berth and crane occupancies are the uncapped raw
ratios, and the planned ratio can exceed 1 (shown at a concrete input). -/
theorem C10_theorem (oh : ℚ) (es : List Element) (year : ℤ) (hs hm pm : ℤ)
    (hc : ¬ crane_list es = []) (ho : 0 < service_rate_online es year) :
    (calculate_berth_occupancy oh es year hs hm pm).2.1 =
      some (min (berth_occupancy_online_ratio oh es year hs hm pm) 1) ∧
    (calculate_berth_occupancy oh es year hs hm pm).2.2.2 =
      some (min (crane_occupancy_online_ratio oh es year hs hm pm) 1) ∧
    (calculate_berth_occupancy oh es year hs hm pm).1 =
      some (berth_occupancy_planned_ratio oh es hs hm pm) ∧
    (calculate_berth_occupancy oh es year hs hm pm).2.2.1 =
      some (crane_occupancy_planned_ratio oh es hs hm pm) ∧
    1 < berth_occupancy_planned_ratio 7500 C10_es 0 0 1000 := by
  have ho' : ¬ service_rate_online es year = 0 := ne_of_gt ho
  unfold calculate_berth_occupancy
  rw [if_neg hc, if_pos ho']
  refine ⟨rfl, rfl, rfl, rfl, ?_⟩
  norm_num [berth_occupancy_planned_ratio, C10_es, service_rate_planned,
    crane_list, berth_list, List.filterMap, List.filter,
    handysize_call_size, handymax_call_size, panamax_call_size,
    handysize_mooring_time, handymax_mooring_time, panamax_mooring_time]

/-- C10 witness: the capped online and uncapped planned occupancies at the
concrete one-crane registry in its online year. -/
theorem C10_witness :
    (¬ crane_list C10_es = [] ∧ 0 < service_rate_online C10_es 2021) ∧
    ((calculate_berth_occupancy 7500 C10_es 2021 1 1 1).2.1 =
      some (min (berth_occupancy_online_ratio 7500 C10_es 2021 1 1 1) 1) ∧
    (calculate_berth_occupancy 7500 C10_es 2021 1 1 1).2.2.2 =
      some (min (crane_occupancy_online_ratio 7500 C10_es 2021 1 1 1) 1) ∧
    (calculate_berth_occupancy 7500 C10_es 2021 1 1 1).1 =
      some (berth_occupancy_planned_ratio 7500 C10_es 1 1 1) ∧
    (calculate_berth_occupancy 7500 C10_es 2021 1 1 1).2.2.1 =
      some (crane_occupancy_planned_ratio 7500 C10_es 1 1 1) ∧
    1 < berth_occupancy_planned_ratio 7500 C10_es 0 0 1000) :=
  ⟨⟨by decide, by norm_num [C10_es, service_rate_online, crane_list,
      List.filterMap, List.filter]⟩,
    C10_theorem 7500 C10_es 2021 1 1 1 (by decide)
      (by norm_num [C10_es, service_rate_online, crane_list, List.filterMap,
        List.filter])⟩

-- *** C7: missing scenario years ***

/-- Registry whose single commodity has data for 2020 only. -/
def C7_es : List Element :=
  [Element.commodity 500 0 0 100 [((2020 : ℤ), (99000 : ℚ))],
   Element.vessel .handysize 35000,
   Element.vessel .handymax 55000,
   Element.vessel .panamax 3000]

/-- C7: for the year 2021, which is absent from the scenario,
calculate_vessel_calls silently yields zero calls and zero volume, but
throughput_characteristics raises (UnboundLocalError: the volume variable is
assigned only inside the silenced per-commodity lookup), contradicting the
claim that every demand-derived computation treats the missing year as a
silent zero; for the present year 2020 the translator works normally. -/
theorem C7_theorem :
    calculate_vessel_calls C7_es 2021 = .ok (0, 0, 0, 0, 0) ∧
    throughput_characteristics (9 / 10) (5 / 100) (25 / 1000) (25 / 1000)
      C7_es 2021 = .error .nameError ∧
    calculate_vessel_calls C7_es 2020 = .ok (0, 0, 33, 33, 99000) := by
  have h1 : vessel_call_size C7_es .handysize = some 35000 := by
    simp [vessel_call_size, C7_es]
  have h2 : vessel_call_size C7_es .handymax = some 55000 := by
    simp [vessel_call_size, C7_es]
  have h3 : vessel_call_size C7_es .panamax = some 3000 := by
    simp [vessel_call_size, C7_es]
  have hc : commodity_list C7_es =
      [(500, 0, 0, 100, [((2020 : ℤ), (99000 : ℚ))])] := by
    simp [commodity_list, C7_es]
  refine ⟨?_, ?_, ?_⟩
  · simp [calculate_vessel_calls, hc, h1, h2, h3, scenario_lookup, py_ceil]
  · simp [throughput_characteristics, hc, scenario_lookup]
  · norm_num [calculate_vessel_calls, hc, h1, h2, h3, scenario_lookup, py_ceil]

-- *** C3: year_online attribution ***

/-- The last element of a list with one element appended. -/
theorem getLast?_append_single {α : Type} (l : List α) (a : α) :
    (l ++ [a]).getLast? = some a := by
  rw [List.getLast?_append_cons]
  rfl

/-- Initial registry of the C3 counterexample run: the three vessel records
and no commodity, so the vessel-call lookup succeeds with zero calls and
berth_invest runs to completion exactly as in the source. -/
def C3_es : List Element :=
  [Element.vessel .handysize 35000,
   Element.vessel .handymax 55000,
   Element.vessel .panamax 3000]

/-- C3 counterexample: running berth_invest in the very first simulated year
(2020, the example start year) on a registry holding the three vessel
records creates a berth whose year_online is 2021 = decision year + delivery
time (1), not the claimed 2022 = decision year + delivery time + 1; the quay
follows 2020 + 2 and the crane the quay. -/
theorem C3_counterexample :
    example_config.startyear = 2020 ∧
    (berth_invest example_config 10 C3_es 2020 0 0 0).map
        (fun es => es.map (fun e => (e.kind, e.year_online))) =
      .ok [(Element.Kind.vessel, 0), (Element.Kind.vessel, 0),
        (Element.Kind.vessel, 0), (Element.Kind.berth, 2021),
        (Element.Kind.quay_wall, 2022), (Element.Kind.cyclic_unloader, 2022)] ∧
    (2021 : ℤ) ≠ 2020 + berth_delivery_time + 1 := by
  have h1 : vessel_call_size C3_es .handysize = some 35000 := by
    simp [vessel_call_size, C3_es]
  have h2 : vessel_call_size C3_es .handymax = some 55000 := by
    simp [vessel_call_size, C3_es]
  have h3 : vessel_call_size C3_es .panamax = some 3000 := by
    simp [vessel_call_size, C3_es]
  have hc : commodity_list C3_es = [] := by
    simp [commodity_list, C3_es]
  have hvc : calculate_vessel_calls C3_es 2020 = .ok (0, 0, 0, 0, 0) := by
    simp [calculate_vessel_calls, hc, h1, h2, h3, py_ceil]
  have hcr : crane_list C3_es = [] := by
    simp [crane_list, C3_es]
  have hb : (berth_list C3_es).length = 0 := by
    simp [berth_list, C3_es]
  have hwt : waiting_time example_config C3_es 2020 = .ok none := by
    simp [waiting_time, hvc, calculate_berth_occupancy, hcr, hb,
      waiting_factor, bind, Except.bind, pure, Except.pure]
  refine ⟨rfl, ?_, by decide⟩
  unfold berth_invest
  simp only [bind, Except.bind, hwt]
  norm_num [berth_invest_loop, calculate_berth_occupancy, C3_es,
    example_config, example_missing, example_crane_defaults, example_elements,
    crane_list, berth_list, quay_list, check_crane_slot_available,
    berth_invest_add_berth, quay_invest, crane_invest, quay_length_rule,
    service_rate_online, service_rate_planned,
    berth_occupancy_planned_ratio, crane_occupancy_planned_ratio,
    berth_occupancy_online_ratio, crane_occupancy_online_ratio,
    add_cashflow_data_to_element, sim_years, py_int, pGtQ,
    handysize_LOA, handymax_LOA, panamax_LOA, handysize_draft, handymax_draft,
    panamax_draft, handysize_call_size, handymax_call_size, panamax_call_size,
    handysize_mooring_time, handymax_mooring_time, panamax_mooring_time,
    quay_Gijt_constant, quay_freeboard, quay_mobilisation_perc,
    quay_mobilisation_min, quay_apron_width, quay_insurance_perc,
    quay_maintenance_perc, quay_delivery_time, quay_max_sinkage,
    quay_wave_motion, quay_safety_margin, berth_delivery_time, berth_max_cranes,
    labour_daily_shifts, Element.kind, Element.year_online,
    List.filterMap, List.filter, List.range, List.range.loop, List.getLast?,
    Except.map, Function.comp]

/-- C3 (amended): the one-year extra first-year lead holds for tractors,
empty handlers, laden, empty and OOG stacks, stack equipment and gates;
berths and quay walls always come online at decision year plus delivery
time, with no extra lead; a crane comes online at the maximum of decision
year plus delivery time and the latest quay year_online (and crane creation
fails when no quay exists); the general-services block, created only in the
year after the start year, comes online at decision year plus delivery
time. -/
theorem C3_theorem (cfg : Config) (es : List Element) (year : ℤ)
    (length depth reefer_slots : ℚ) :
    ((berth_invest_add_berth es year).getLast? =
      some (Element.berth (year + berth_delivery_time) berth_max_cranes)) ∧
    ((quay_invest cfg es year length depth).getLast?.map Element.year_online =
      some (year + quay_delivery_time)) ∧
    ((crane_invest cfg es year).map
        (fun l => l.getLast?.map Element.year_online) =
      (match ((quay_list es).map (fun q => q.1)).max? with
        | some latest =>
            .ok (some (max (year + cfg.crane_type_defaults.delivery_time) latest))
        | none => .error .valueError)) ∧
    ((add_tractor cfg es year).getLast?.map Element.year_online =
      some (first_year_lead_online cfg.startyear year tractor_delivery_time)) ∧
    ((add_empty_handler cfg es year).getLast?.map Element.year_online =
      some (first_year_lead_online cfg.startyear year
        cfg.missing.eh_delivery_time)) ∧
    ((add_laden_stack cfg es year reefer_slots).getLast?.map Element.year_online =
      some (first_year_lead_online cfg.startyear year
        (laden_stack_data cfg.laden_stack).delivery_time)) ∧
    ((add_empty_stack cfg es year).getLast?.map Element.year_online =
      some (first_year_lead_online cfg.startyear year
        empty_stack_data.delivery_time)) ∧
    ((add_oog_stack cfg es year).getLast?.map Element.year_online =
      some (first_year_lead_online cfg.startyear year
        oog_stack_data.delivery_time)) ∧
    ((add_stack_equipment cfg es year).getLast?.map Element.year_online =
      some (first_year_lead_online cfg.startyear year
        (stack_equipment_data cfg.stack_equipment).delivery_time)) ∧
    ((add_gate cfg es year).getLast?.map Element.year_online =
      some (first_year_lead_online cfg.startyear year gate_delivery_time)) ∧
    ((general_services_invest cfg es (cfg.startyear + 1)).map
        (fun l => l.getLast?.map Element.year_online) =
      (throughput_characteristics cfg.laden_perc cfg.reefer_perc cfg.empty_perc
        cfg.oog_perc es (cfg.startyear + 1)).map
        (fun _ => some (cfg.startyear + 1 + cfg.missing.gs_delivery_time))) := by
  refine ⟨?_, ?_, ?_, ?_, ?_, ?_, ?_, ?_, ?_, ?_, ?_⟩
  · simp [berth_invest_add_berth]
  · simp [quay_invest, Element.year_online]
  · unfold crane_invest
    cases hmax : ((quay_list es).map (fun q => q.1)).max? with
    | none => simp [Except.map]
    | some latest => simp [Except.map, getLast?_append_single, Element.year_online]
  · simp [add_tractor, Element.year_online]
  · simp [add_empty_handler, Element.year_online]
  · simp [add_laden_stack, Element.year_online]
  · simp [add_empty_stack, Element.year_online]
  · unfold add_oog_stack first_year_lead_online
    by_cases hy : year = cfg.startyear
    · simp [hy, Element.year_online]
    · simp [hy, Element.year_online]
  · simp [add_stack_equipment, Element.year_online]
  · simp [add_gate, Element.year_online]
  · unfold general_services_invest
    cases htc : throughput_characteristics cfg.laden_perc cfg.reefer_perc
        cfg.empty_perc cfg.oog_perc es (cfg.startyear + 1) with
    | error e => simp [htc, Except.map]
    | ok tc => simp [htc, Except.map, getLast?_append_single, Element.year_online]

-- *** C1: the NPV roll-up ***

/-- Zipping a list built over range with a list of matching length pairs the
entries by index. -/
theorem zip_map_range {A B : Type} (n : ℕ) (F : ℕ → A) (l : List B) (d : B)
    (hl : l.length = n) :
    ((List.range n).map F).zip l =
      (List.range n).map (fun i => (F i, l.getD i d)) := by
  induction n generalizing F l with
  | zero => simp
  | succ m ih =>
      cases l with
      | nil => simp at hl
      | cons b tl =>
          simp only [List.range_succ_eq_map, List.map_cons, List.map_map,
            List.zip_cons_cons, List.getD_cons_zero]
          congr 1
          rw [ih (F ∘ Nat.succ) tl (by simpa using hl)]
          refine List.map_congr_left ?_
          intro i hi
          simp [Function.comp, List.getD_cons_succ]

/-- Configuration with an empty initial registry and a two-year lifecycle
from 2020, on which the claimed and the implemented NPV differ. -/
def C1_cfg : Config :=
  { startyear := 2020
    lifecycle := 2
    operational_hours := 7500
    stack_equipment := .rtg
    laden_stack := .rtg
    elements := []
    crane_type_defaults := example_crane_defaults
    allowable_berth_occupancy := 6 / 10
    allowable_dwelltime := 18 / 365
    laden_perc := 9 / 10
    reefer_perc := 5 / 100
    empty_perc := 25 / 1000
    oog_perc := 25 / 1000
    transhipment_share := 3 / 10
    energy_price := 15 / 100
    fuel_price := 1
    land_price := 0
    missing := example_missing }

/-- C1 counterexample: with no elements, zero demurrage and the revenue
series 0 then 100, the source NPV is exactly 100 (the year-1 revenue enters
undiscounted), while the claimed formula discounting the revenue at the real
WACC 173/1275 gives 100/(1448/1275) = 31875/362; the two differ. -/
theorem C1_counterexample :
    NPV C1_cfg [] [some 0, some 0] [0, 100] = .ok (some 100) ∧
    NPV_spec_formula C1_cfg [] [some 0, some 0] [0, 100] =
      .ok (some (31875 / 362)) ∧
    (some (100 : ℚ) : PFloat) ≠ some (31875 / 362) := by
  have hledger : add_cashflow_elements C1_cfg [] [some 0, some 0] [0, 100] =
      .ok [⟨2020, 0, 0, 0, 0, 0, 0, some 0, 0⟩,
        ⟨2021, 0, 0, 0, 0, 0, 0, some 0, 100⟩] := rfl
  have hs : C1_cfg.startyear = 2020 := rfl
  have hw : WACC_real_default = 173 / 1275 := by
    norm_num [WACC_real_default, WACC_real, WACC_nominal_default, WACC_nominal]
  refine ⟨?_, ?_, by norm_num⟩
  · unfold NPV
    rw [hledger]
    simp only [bind, Except.bind]
    simp only [discount_ledger, hs, List.map_cons, List.map_nil]
    simp only [List.zip_cons_cons, List.zip_nil_right, List.map_cons,
      List.map_nil]
    simp only [pSum, List.foldr, pAdd, pNeg, pDiv]
    rw [hw]
    norm_num
    rfl
  · unfold NPV_spec_formula
    rw [hledger]
    simp only [bind, Except.bind]
    simp only [List.map_cons, List.map_nil, hs]
    simp only [pSum, List.foldr, pAdd, pNeg, pDiv]
    rw [hw]
    norm_num
    rfl

/-- C1 (amended): for every registry, demurrage series and revenue series,
the NPV the source computes equals the sum over the lifecycle years of
(revenue − capex − insurance − maintenance − energy − fuel − labour −
demurrage) where every cost term of a year is discounted at the real WACC by
the offset from the start year but the revenue term enters undiscounted. -/
theorem C1_theorem (cfg : Config) (es : List Element)
    (demurrage : List PFloat) (revenues : List ℚ) :
    NPV cfg es demurrage revenues =
      NPV_amended_formula cfg es demurrage revenues := by
  unfold NPV NPV_amended_formula
  by_cases hcond : demurrage.length = cfg.lifecycle ∧
    revenues.length = cfg.lifecycle
  · simp only [add_cashflow_elements, if_pos hcond]
    simp only [bind, Except.bind, pure]
    congr 1
    unfold discount_ledger
    rw [List.map_map]
    rw [zip_map_range cfg.lifecycle _ revenues 0 hcond.2]
    rw [List.map_map, List.map_map]
    refine congrArg pSum ?_
    refine List.map_congr_left ?_
    intro i hi
    simp only [Function.comp]
    cases hd : demurrage.getD i none with
    | none => simp [pAdd, pNeg, pDiv, hd]
    | some dq =>
        simp only [hd, pAdd, pNeg, pDiv]
        congr 1
        ring
  · simp [add_cashflow_elements, hcond]

-- *** C2: determinism of the simulation ***

/-- C2: two independent System instances constructed with identical inputs
(equal Config values, in particular value-identical element lists, which is
what independence of the two instances means given that the constructor
aliases the list it is handed) produce, after one simulate call each, the
same outcome: identical registry profiles (element count, element kinds,
year_online values) and the identical scalar NPV, including agreement on
whether the run raises. -/
theorem C2_theorem (cfg1 cfg2 : Config) (fuel : ℕ) (h : cfg1 = cfg2) :
    (simulate cfg1 fuel).map (fun r => registry_profile r.elements) =
      (simulate cfg2 fuel).map (fun r => registry_profile r.elements) ∧
    (simulate cfg1 fuel).map (fun r => r.npv) =
      (simulate cfg2 fuel).map (fun r => r.npv) := by
  subst h
  exact ⟨rfl, rfl⟩

/-- C2 witness: two instances built from the example configuration. -/
theorem C2_witness :
    example_config = example_config ∧
    ((simulate example_config 60).map (fun r => registry_profile r.elements) =
      (simulate example_config 60).map (fun r => registry_profile r.elements) ∧
    (simulate example_config 60).map (fun r => r.npv) =
      (simulate example_config 60).map (fun r => r.npv)) :=
  ⟨rfl, C2_theorem example_config example_config 60 rfl⟩

end ContainerSystem
